import Mathlib

/-!
Verification development for the PAM (Partitioning Around Medoids) clustering
repository.  The single source file defines one function, described here as
cluster_PAM.  The embedding below follows that source:

* the input matrix X is modelled as a value of NDArrayLike, so that the
  validation branch (not an ndarray / wrong number of dimensions / NaN
  entries) is expressible;
* the cluster-count argument k is modelled as a PyNum, so that the
  isinstance-based integer check (which accepts Python bools and rejects
  numpy integer scalars) is expressible;
* the distance matrix is a function on indices; the concrete builder
  distMat computes the Euclidean distance between rows, as the source does
  with a norm of row differences;
* the randomness of the initial medoid choice is modelled by passing the
  initial medoid list as an argument; everything downstream of that choice
  is deterministic in the source;
* the unbounded optimizer loop is modelled with an explicit fuel argument,
  returning none when the fuel is exhausted.

The core algorithm is generic over a linear ordered field so that the same
definitions run computably over the rationals and instantiate at the reals
for the Euclidean-distance claims.
-/

namespace PAM

/-- Entry of the input matrix: either a NaN or a numeric value. -/
inductive REntry (α : Type) where
  | nan : REntry α
  | val : α → REntry α

/-- Model of the X argument of cluster_PAM: either a value that is not a
NumPy ndarray at all, or an ndarray with the given number of dimensions
whose content, when the array is two-dimensional, is the given list of
rows. -/
inductive NDArrayLike (α : Type) where
  | notNdarray : NDArrayLike α
  | ndarray : Nat → List (List (REntry α)) → NDArrayLike α

/-- Model of the k argument of cluster_PAM.  In Python, bool is a subclass
of int, so isinstance of k and int holds for Python bools and Python ints
but not for numpy integer scalars. -/
inductive PyNum where
  | pyBool : Bool → PyNum
  | pyInt : Int → PyNum
  | npInt : Int → PyNum

/-- The isinstance check of the source: true exactly for Python ints and
Python bools. -/
def PyNum.isPyInt : PyNum → Bool
  | .pyBool _ => true
  | .pyInt _ => true
  | .npInt _ => false

/-- Numeric value of a PyNum, as Python comparison and indexing see it
(True counts as 1 and False as 0). -/
def PyNum.toInt : PyNum → Int
  | .pyBool b => if b then 1 else 0
  | .pyInt n => n
  | .npInt n => n

/-- Whether a matrix entry is NaN. -/
def REntry.isNaN {α : Type} : REntry α → Bool
  | .nan => true
  | .val _ => false

/-- The np.any np.isnan check over the rows of the matrix. -/
def hasNaN {α : Type} (X : NDArrayLike α) : Bool :=
  match X with
  | .notNdarray => false
  | .ndarray _ rows => rows.any (fun r => r.any (fun e => e.isNaN))

/-- Number of rows of the input, X.shape 0 in the source. -/
def numRows {α : Type} (X : NDArrayLike α) : Nat :=
  match X with
  | .notNdarray => 0
  | .ndarray _ rows => rows.length

/-- Error message of the first validation check of the source. -/
def msgNotArray : String := "Input data X must be a NumPy array."

/-- Error message of the dimensionality check of the source. -/
def msgNot2D : String := "Input data X must be a 2D NumPy array (n_samples, n_features)."

/-- Error message of the k check of the source. -/
def msgBadK : String := "Number of clusters k must be a positive integer."

/-- Error message of the k-versus-n check of the source. -/
def msgKTooLarge : String := "Number of clusters k cannot exceed the number of data points."

/-- Error message of the NaN check of the source. -/
def msgNaN : String := "Input data X contains NaN values. Please handle missing data before running the algorithm."

/-- The validation prologue of cluster_PAM, in the order of the source:
ndarray check, dimensionality check, integer-and-positivity check on k,
k-versus-row-count check, NaN check.  Returns the message of the first
failing check, or none when all checks pass. -/
def validate {α : Type} (X : NDArrayLike α) (k : PyNum) : Option String :=
  match X with
  | .notNdarray => some msgNotArray
  | .ndarray ndim rows =>
    if ndim ≠ 2 then some msgNot2D
    else if ¬ k.isPyInt ∨ k.toInt ≤ 0 then some msgBadK
    else if k.toInt > (rows.length : Int) then some msgKTooLarge
    else if rows.any (fun r => r.any (fun e => e.isNaN)) then some msgNaN
    else none

/-- Squared Euclidean distance between two rows, the sum of squared
coordinate differences. -/
def sqDist {α : Type} [LinearOrderedField α] (x y : List α) : α :=
  (List.zipWith (fun a b => (a - b) ^ 2) x y).sum

/-- The distance matrix of the source: entry i j is the Euclidean norm of
the difference of rows i and j of X. -/
noncomputable def distMat (rows : List (List ℝ)) : Nat → Nat → ℝ :=
  fun i j => Real.sqrt (sqDist (rows.getD i []) (rows.getD j []))

/-- Row-wise minimum over the medoid columns: np.min of the restricted
matrix along axis 1, for row i.  The medoid list is nonempty in every run
of the source (k is validated positive); on the empty list we return 0. -/
def rowMin {α : Type} [LinearOrderedField α] (D : Nat → Nat → α) (i : Nat) :
    List Nat → α
  | [] => 0
  | m :: ms => ms.foldl (fun acc m2 => min acc (D i m2)) (D i m)

/-- Total cost of a medoid list: the sum over all points of the minimum
distance to a medoid, np.sum of np.min of the restricted matrix. -/
def cost {α : Type} [LinearOrderedField α] (D : Nat → Nat → α) (n : Nat)
    (ms : List Nat) : α :=
  ((List.range n).map (fun i => rowMin D i ms)).sum

/-- One candidate test of the inner loop of the source: skip candidates
that are current medoids; otherwise build the trial list by removing the
considered medoid and appending the candidate, and keep the candidate when
its cost is strictly smaller than the running best cost.  The state is the
pair of the running best cost and the running best replacement. -/
def scanStep {α : Type} [LinearOrderedField α] (D : Nat → Nat → α) (n : Nat)
    (medoids : List Nat) (medoid : Nat) (st : α × Nat) (c : Nat) : α × Nat :=
  if c ∈ medoids then st
  else
    let testCost := cost D n (medoids.erase medoid ++ [c])
    if testCost < st.1 then (testCost, c) else st

/-- The inner candidate loop of the source: scan candidates 0, 1, ..., n-1
starting from the running best cost and the considered medoid as default
replacement. -/
def scanCandidates {α : Type} [LinearOrderedField α] (D : Nat → Nat → α)
    (n : Nat) (medoids : List Nat) (medoid : Nat) (bestCost : α) : α × Nat :=
  (List.range n).foldl (scanStep D n medoids medoid) (bestCost, medoid)

/-- Processing of one medoid of the snapshot: run the candidate scan, then
remove the medoid from the working list and append the best replacement
(the source performs remove followed by append even when the replacement
is the medoid itself, which moves it to the end of the list). -/
def passStep {α : Type} [LinearOrderedField α] (D : Nat → Nat → α) (n : Nat)
    (st : List Nat × α) (medoid : Nat) : List Nat × α :=
  let r := scanCandidates D n st.1 medoid st.2
  (st.1.erase medoid ++ [r.2], r.1)

/-- One full pass of the optimizer loop: iterate over the snapshot of the
medoid list taken at the start of the pass, updating the working medoid
list and the running best cost. -/
def doPass {α : Type} [LinearOrderedField α] (D : Nat → Nat → α) (n : Nat)
    (medoids : List Nat) (bestCost : α) : List Nat × α :=
  medoids.foldl (passStep D n) (medoids, bestCost)

/-- The optimizer loop of the source: run passes until a pass leaves the
set of medoids unchanged (the source compares set of medoids with set of
the snapshot), with explicit fuel standing for the unbounded while loop;
none means the fuel was exhausted before convergence. -/
def pamLoop {α : Type} [LinearOrderedField α] (D : Nat → Nat → α) (n : Nat) :
    Nat → List Nat → α → Option (List Nat × α)
  | 0, _, _ => none
  | fuel + 1, medoids, bestCost =>
    let r := doPass D n medoids bestCost
    if r.1.toFinset = medoids.toFinset then some r
    else pamLoop D n fuel r.1 r.2

/-- Index of the first occurrence of the minimum, scanning with a running
best value, best index and current index; a later element replaces the
running best only when strictly smaller, as np.argmin keeps the first
occurrence. -/
def argminAux {α : Type} [LinearOrderedField α] :
    List α → α → Nat → Nat → Nat
  | [], _, bestIdx, _ => bestIdx
  | x :: xs, bestVal, bestIdx, cur =>
    if x < bestVal then argminAux xs x cur (cur + 1)
    else argminAux xs bestVal bestIdx (cur + 1)

/-- np.argmin over a list: position of the first occurrence of the minimal
value (0 on the empty list, which no validated run produces). -/
def argminIdx {α : Type} [LinearOrderedField α] : List α → Nat
  | [] => 0
  | x :: xs => argminAux xs x 0 1

/-- The final cluster assignment of the source: for each point the
np.argmin over the columns of the matrix restricted to the medoid list,
hence a column position into that list, not a row index of X. -/
def assignClusters {α : Type} [LinearOrderedField α] (D : Nat → Nat → α)
    (n : Nat) (medoids : List Nat) : List Nat :=
  (List.range n).map (fun i => argminIdx (medoids.map (fun m => D i m)))

/-- The optimization-and-finalization part of cluster_PAM, downstream of
validation and of the random initial medoid choice: run the optimizer loop
from the initial medoid list and its cost, then recompute the final cost
from the converged medoid list and build the cluster assignment. -/
def cluster_PAM {α : Type} [LinearOrderedField α] (D : Nat → Nat → α)
    (n : Nat) (initMedoids : List Nat) (fuel : Nat) :
    Option (List Nat × List Nat × α) :=
  match pamLoop D n fuel initMedoids (cost D n initMedoids) with
  | none => none
  | some r => some (r.1, assignClusters D n r.1, cost D n r.1)

/-- The whole entry point with validation: on a validation failure the
error message is returned and the algorithm body (parametrized here by the
distance matrix D, so that independence from D expresses that no distance
work happens) is never consulted.  The inner Option is none when the loop
fuel runs out. -/
def clusterPAMChecked {α : Type} [LinearOrderedField α] (D : Nat → Nat → α)
    (X : NDArrayLike α) (k : PyNum) (initMedoids : List Nat) (fuel : Nat) :
    Except String (Option (List Nat × List Nat × α)) :=
  match validate X k with
  | some msg => .error msg
  | none => .ok (cluster_PAM D (numRows X) initMedoids fuel)

/-- The fold computing a row minimum is bounded by its seed. -/
theorem foldlMin_le_seed {α : Type} [LinearOrderedField α] (D : Nat → Nat → α)
    (i : Nat) : ∀ (ms : List Nat) (a : α),
    ms.foldl (fun acc m2 => min acc (D i m2)) a ≤ a := by
  intro ms
  induction ms with
  | nil => intro a; simp
  | cons m ms ih =>
    intro a
    simpa using le_trans (ih (min a (D i m))) (min_le_left _ _)

/-- The fold computing a row minimum is bounded by every scanned entry. -/
theorem foldlMin_le_mem {α : Type} [LinearOrderedField α] (D : Nat → Nat → α)
    (i : Nat) : ∀ (ms : List Nat) (a : α), ∀ m ∈ ms,
    ms.foldl (fun acc m2 => min acc (D i m2)) a ≤ D i m := by
  intro ms
  induction ms with
  | nil => intro a m hm; simp at hm
  | cons m0 ms ih =>
    intro a m hm
    rcases List.mem_cons.1 hm with h | h
    · subst h
      simpa using le_trans (foldlMin_le_seed D i ms (min a (D i m)))
        (min_le_right _ _)
    · simpa using ih (min a (D i m0)) m h

/-- The fold computing a row minimum returns its seed or a scanned entry. -/
theorem foldlMin_cases {α : Type} [LinearOrderedField α] (D : Nat → Nat → α)
    (i : Nat) : ∀ (ms : List Nat) (a : α),
    ms.foldl (fun acc m2 => min acc (D i m2)) a = a ∨
      ∃ m ∈ ms, ms.foldl (fun acc m2 => min acc (D i m2)) a = D i m := by
  intro ms
  induction ms with
  | nil => intro a; left; rfl
  | cons m0 ms ih =>
    intro a
    have hstep : (m0 :: ms).foldl (fun acc m2 => min acc (D i m2)) a =
        ms.foldl (fun acc m2 => min acc (D i m2)) (min a (D i m0)) := rfl
    rcases ih (min a (D i m0)) with h | ⟨m, hm, h⟩
    · rcases min_choice a (D i m0) with hc | hc
      · left; rw [hstep, h, hc]
      · right; exact ⟨m0, List.mem_cons_self _ _, by rw [hstep, h, hc]⟩
    · right; exact ⟨m, List.mem_cons_of_mem _ hm, by rw [hstep, h]⟩

/-- The row minimum is a lower bound on the distances to the medoids. -/
theorem rowMin_le {α : Type} [LinearOrderedField α] (D : Nat → Nat → α)
    (i : Nat) (ms : List Nat) : ∀ m ∈ ms, rowMin D i ms ≤ D i m := by
  cases ms with
  | nil => intro m hm; simp at hm
  | cons m0 ms =>
    intro m hm
    rcases List.mem_cons.1 hm with h | h
    · subst h; exact foldlMin_le_seed D i ms (D i m)
    · exact foldlMin_le_mem D i ms (D i m0) m h

/-- The row minimum of a nonempty medoid list is attained at a medoid. -/
theorem rowMin_attained {α : Type} [LinearOrderedField α] (D : Nat → Nat → α)
    (i : Nat) (ms : List Nat) (h : ms ≠ []) :
    ∃ m ∈ ms, rowMin D i ms = D i m := by
  cases ms with
  | nil => exact absurd rfl h
  | cons m0 ms =>
    rcases foldlMin_cases D i ms (D i m0) with hc | ⟨m, hm, hc⟩
    · exact ⟨m0, List.mem_cons_self _ _, hc⟩
    · exact ⟨m, List.mem_cons_of_mem _ hm, hc⟩

/-- Row minima agree on nonempty medoid lists with equal membership. -/
theorem rowMin_congr {α : Type} [LinearOrderedField α] (D : Nat → Nat → α)
    (i : Nat) {ms1 ms2 : List Nat} (hmem : ∀ x, x ∈ ms1 ↔ x ∈ ms2)
    (h1 : ms1 ≠ []) (h2 : ms2 ≠ []) : rowMin D i ms1 = rowMin D i ms2 := by
  obtain ⟨m1, hm1, he1⟩ := rowMin_attained D i ms1 h1
  obtain ⟨m2, hm2, he2⟩ := rowMin_attained D i ms2 h2
  have hle : rowMin D i ms1 ≤ rowMin D i ms2 := by
    rw [he2]; exact rowMin_le D i ms1 m2 ((hmem m2).2 hm2)
  have hge : rowMin D i ms2 ≤ rowMin D i ms1 := by
    rw [he1]; exact rowMin_le D i ms2 m1 ((hmem m1).1 hm1)
  exact le_antisymm hle hge

/-- Costs agree on nonempty medoid lists with equal membership. -/
theorem cost_congr {α : Type} [LinearOrderedField α] (D : Nat → Nat → α)
    (n : Nat) {ms1 ms2 : List Nat} (hmem : ∀ x, x ∈ ms1 ↔ x ∈ ms2)
    (h1 : ms1 ≠ []) (h2 : ms2 ≠ []) : cost D n ms1 = cost D n ms2 := by
  unfold cost
  congr 1
  exact List.map_congr_left fun i _ => rowMin_congr D i hmem h1 h2

/-- Cost is invariant under permutation of the medoid list. -/
theorem cost_perm {α : Type} [LinearOrderedField α] (D : Nat → Nat → α)
    (n : Nat) {ms1 ms2 : List Nat} (hp : ms1.Perm ms2) (h1 : ms1 ≠ []) :
    cost D n ms1 = cost D n ms2 := by
  have h2 : ms2 ≠ [] := by
    intro h; rw [h] at hp
    exact h1 (List.Perm.eq_nil hp)
  exact cost_congr D n (fun x => hp.mem_iff) h1 h2

/-- Squared distance is symmetric in its two rows. -/
theorem sqDist_comm {α : Type} [LinearOrderedField α] (x y : List α) :
    sqDist x y = sqDist y x := by
  unfold sqDist
  rw [List.zipWith_comm_of_comm _ (fun a b => by ring) x y]

/-- Squared distance of a row to itself vanishes. -/
theorem sqDist_self {α : Type} [LinearOrderedField α] (x : List α) :
    sqDist x x = 0 := by
  unfold sqDist
  rw [List.zipWith_same]
  induction x with
  | nil => rfl
  | cons a x ih => simp [ih]

/-- Squared distance is nonnegative. -/
theorem sqDist_nonneg {α : Type} [LinearOrderedField α] (x y : List α) :
    0 ≤ sqDist x y := by
  unfold sqDist
  refine List.sum_nonneg ?_
  intro t ht
  induction x generalizing y with
  | nil => simp at ht
  | cons a x ih =>
    cases y with
    | nil => simp at ht
    | cons b y =>
      rcases List.mem_cons.1 ht with h | h
      · rw [h]; positivity
      · exact ih y h

/-- C8: for every input matrix the distance matrix is symmetric, has zero
diagonal, and has nonnegative entries, each entry being the Euclidean
distance between the two rows. -/
theorem C8_distance_matrix_properties (rows : List (List ℝ)) (i j : Nat) :
    distMat rows i j = distMat rows j i ∧ distMat rows i i = 0 ∧
      0 ≤ distMat rows i j := by
  refine ⟨?_, ?_, Real.sqrt_nonneg _⟩
  · unfold distMat; rw [sqDist_comm]
  · unfold distMat; rw [sqDist_self, Real.sqrt_zero]

/-- C9: everything after the random initialization is deterministic: two
runs starting from the same initial medoid list return identical medoid
lists, assignments and final cost. -/
theorem C9_determinism {α : Type} [LinearOrderedField α] (D : Nat → Nat → α)
    (n fuel : Nat) (ms1 ms2 : List Nat) (h : ms1 = ms2) :
    cluster_PAM D n ms1 fuel = cluster_PAM D n ms2 fuel := by rw [h]

/-- Witness for C9 at a concrete input. -/
theorem C9_determinism_witness :
    ([0] : List Nat) = [0] ∧
      cluster_PAM (fun _ _ => (0 : ℚ)) 1 [0] 1 =
        cluster_PAM (fun _ _ => (0 : ℚ)) 1 [0] 1 :=
  ⟨rfl, C9_determinism (fun _ _ => (0 : ℚ)) 1 1 [0] [0] rfl⟩

/-- Validity of a working medoid list: exactly k pairwise distinct valid
row indices. -/
def ValidMedoids (n k : Nat) (ms : List Nat) : Prop :=
  ms.Nodup ∧ ms.length = k ∧ ∀ x ∈ ms, x < n

/-- Membership of the list obtained by removing a medoid and appending it
back is the membership of the original list. -/
theorem mem_erase_append_self {ms : List Nat} {m : Nat} (hm : m ∈ ms) :
    ∀ x, x ∈ ms.erase m ++ [m] ↔ x ∈ ms := by
  intro x
  constructor
  · intro hx
    rcases List.mem_append.1 hx with h | h
    · exact List.mem_of_mem_erase h
    · rw [List.mem_singleton.1 h]; exact hm
  · intro hx
    by_cases hxm : x = m
    · exact List.mem_append.2 (Or.inr (by simp [hxm]))
    · exact List.mem_append.2 (Or.inl ((List.mem_erase_of_ne hxm).2 hx))

/-- Removing a medoid from the list and appending it back does not change
the cost. -/
theorem cost_erase_append_self {α : Type} [LinearOrderedField α]
    (D : Nat → Nat → α) (n : Nat) {ms : List Nat} {m : Nat} (hm : m ∈ ms) :
    cost D n (ms.erase m ++ [m]) = cost D n ms :=
  cost_congr D n (mem_erase_append_self hm) (by simp) (List.ne_nil_of_mem hm)

/-- Invariant carried through the candidate scan: the running best
replacement is the considered medoid or a fresh valid candidate, the
running best cost never rose, it strictly fell whenever the replacement
changed, and it always equals the cost of the corresponding trial list. -/
def ScanInv {α : Type} [LinearOrderedField α] (D : Nat → Nat → α) (n : Nat)
    (ms : List Nat) (m : Nat) (bc : α) (st : α × Nat) : Prop :=
  (st.2 = m ∨ (st.2 < n ∧ st.2 ∉ ms)) ∧ st.1 ≤ bc ∧ (st.2 ≠ m → st.1 < bc) ∧
    st.1 = cost D n (ms.erase m ++ [st.2])

/-- The candidate-scan fold preserves the scan invariant. -/
theorem scanFold_inv {α : Type} [LinearOrderedField α] (D : Nat → Nat → α)
    (n : Nat) (ms : List Nat) (m : Nat) (bc : α) :
    ∀ (cs : List Nat), (∀ c ∈ cs, c < n) → ∀ st, ScanInv D n ms m bc st →
      ScanInv D n ms m bc (cs.foldl (scanStep D n ms m) st) := by
  intro cs
  induction cs with
  | nil => intro _ st h; exact h
  | cons c cs ih =>
    intro hcs st h
    have hc : c < n := hcs c (List.mem_cons_self _ _)
    have hcs2 : ∀ x ∈ cs, x < n := fun x hx => hcs x (List.mem_cons_of_mem _ hx)
    refine ih hcs2 _ ?_
    by_cases hmem : c ∈ ms
    · have hstep : scanStep D n ms m st c = st := by simp [scanStep, hmem]
      rw [hstep]; exact h
    · by_cases hlt : cost D n (ms.erase m ++ [c]) < st.1
      · have hstep : scanStep D n ms m st c =
            (cost D n (ms.erase m ++ [c]), c) := by simp [scanStep, hmem, hlt]
        rw [hstep]
        exact ⟨Or.inr ⟨hc, hmem⟩, le_of_lt (lt_of_lt_of_le hlt h.2.1),
          fun _ => lt_of_lt_of_le hlt h.2.1, rfl⟩
      · have hstep : scanStep D n ms m st c = st := by
          simp [scanStep, hmem, hlt]
        rw [hstep]; exact h

/-- Specification of the candidate scan of one medoid. -/
theorem scanCandidates_spec {α : Type} [LinearOrderedField α]
    (D : Nat → Nat → α) (n : Nat) (ms : List Nat) (m : Nat) (bc : α)
    (hm : m ∈ ms) (hbc : bc = cost D n ms) :
    ScanInv D n ms m bc (scanCandidates D n ms m bc) := by
  unfold scanCandidates
  refine scanFold_inv D n ms m bc (List.range n) (fun c hc => List.mem_range.1 hc)
    (bc, m) ?_
  exact ⟨Or.inl rfl, le_refl bc, fun h => absurd rfl h,
    by rw [hbc, cost_erase_append_self D n hm]⟩

/-- Specification of the processing of one medoid of the snapshot: the
medoid list stays valid, the returned best cost is the cost of the new
list and never exceeds the incoming cost, the pass either strictly
improves the cost or permutes the list at unchanged cost, and every other
element of the list survives. -/
theorem passStep_spec {α : Type} [LinearOrderedField α] (D : Nat → Nat → α)
    (n k : Nat) (ms : List Nat) (m : Nat) (bc : α)
    (hval : ValidMedoids n k ms) (hm : m ∈ ms) (hbc : bc = cost D n ms) :
    ValidMedoids n k (passStep D n (ms, bc) m).1 ∧
      (passStep D n (ms, bc) m).2 = cost D n (passStep D n (ms, bc) m).1 ∧
      (passStep D n (ms, bc) m).2 ≤ bc ∧
      ((passStep D n (ms, bc) m).2 < bc ∨
        ((passStep D n (ms, bc) m).1.Perm ms ∧ (passStep D n (ms, bc) m).2 = bc)) ∧
      (∀ x ∈ ms, x ≠ m → x ∈ (passStep D n (ms, bc) m).1) := by
  obtain ⟨hnd, hlen, hbound⟩ := hval
  obtain ⟨hrep, hle, hstrict, hcosteq⟩ := scanCandidates_spec D n ms m bc hm hbc
  set r := scanCandidates D n ms m bc with hr
  have hmain : passStep D n (ms, bc) m = (ms.erase m ++ [r.2], r.1) := rfl
  rw [hmain]
  have hnodup : (ms.erase m ++ [r.2]).Nodup := by
    simp only [List.nodup_append, List.nodup_cons, List.not_mem_nil,
      not_false_iff, List.nodup_nil, and_true, List.disjoint_singleton, true_and]
    refine ⟨hnd.erase m, ?_⟩
    rcases hrep with h | ⟨_, hnotin⟩
    · rw [h]; exact hnd.not_mem_erase
    · exact fun hc => hnotin (List.mem_of_mem_erase hc)
  have hlength : (ms.erase m ++ [r.2]).length = k := by
    have h1 : (ms.erase m).length = ms.length - 1 := List.length_erase_of_mem hm
    have h2 : 1 ≤ ms.length := List.length_pos.2 (List.ne_nil_of_mem hm)
    simp only [List.length_append, List.length_singleton, h1]
    omega
  have hbounds : ∀ x ∈ ms.erase m ++ [r.2], x < n := by
    intro x hx
    rcases List.mem_append.1 hx with h | h
    · exact hbound x (List.mem_of_mem_erase h)
    · rw [List.mem_singleton.1 h]
      rcases hrep with he | ⟨hn, _⟩
      · rw [he]; exact hbound m hm
      · exact hn
  refine ⟨⟨hnodup, hlength, hbounds⟩, hcosteq, hle, ?_, ?_⟩
  · by_cases hne : r.2 = m
    · right
      constructor
      · show (ms.erase m ++ [r.2]).Perm ms
        rw [hne]
        exact List.Perm.trans (List.perm_append_singleton _ _)
          (List.perm_cons_erase hm).symm
      · show r.1 = bc
        rw [hcosteq, hne, cost_erase_append_self D n hm, hbc]
    · left; exact hstrict hne
  · intro x hx hxm
    exact List.mem_append.2 (Or.inl ((List.mem_erase_of_ne hxm).2 hx))

/-- Specification of the fold over the snapshot forming one pass, stated
for an arbitrary remaining to-do segment of the snapshot. -/
theorem passFold_spec {α : Type} [LinearOrderedField α] (D : Nat → Nat → α)
    (n k : Nat) : ∀ (todo : List Nat) (ms : List Nat) (bc : α),
    ValidMedoids n k ms → bc = cost D n ms → todo.Nodup →
    (∀ x ∈ todo, x ∈ ms) →
    ValidMedoids n k (todo.foldl (passStep D n) (ms, bc)).1 ∧
      (todo.foldl (passStep D n) (ms, bc)).2 =
        cost D n (todo.foldl (passStep D n) (ms, bc)).1 ∧
      (todo.foldl (passStep D n) (ms, bc)).2 ≤ bc ∧
      ((todo.foldl (passStep D n) (ms, bc)).2 < bc ∨
        ((todo.foldl (passStep D n) (ms, bc)).1.Perm ms ∧
          (todo.foldl (passStep D n) (ms, bc)).2 = bc)) := by
  intro todo
  induction todo with
  | nil =>
    intro ms bc hval hbc _ _
    exact ⟨hval, hbc, le_refl bc, Or.inr ⟨List.Perm.refl ms, rfl⟩⟩
  | cons m todo ih =>
    intro ms bc hval hbc hnd hsub
    have hm : m ∈ ms := hsub m (List.mem_cons_self _ _)
    obtain ⟨hval1, hcost1, hle1, hdisj1, hsurv1⟩ :=
      passStep_spec D n k ms m bc hval hm hbc
    have hfold : (m :: todo).foldl (passStep D n) (ms, bc) =
        todo.foldl (passStep D n) (passStep D n (ms, bc) m) := rfl
    set st1 := passStep D n (ms, bc) m with hst1
    have hnd2 : todo.Nodup := (List.nodup_cons.1 hnd).2
    have hmn : m ∉ todo := (List.nodup_cons.1 hnd).1
    have hsub2 : ∀ x ∈ todo, x ∈ st1.1 := by
      intro x hx
      exact hsurv1 x (hsub x (List.mem_cons_of_mem _ hx))
        (fun he => hmn (he ▸ hx))
    obtain ⟨hv, hc, hl, hd⟩ := ih st1.1 st1.2 hval1 hcost1 hnd2 hsub2
    rw [hfold]
    refine ⟨hv, hc, le_trans hl hle1, ?_⟩
    rcases hd with hlt | ⟨hperm, heq⟩
    · left; exact lt_of_lt_of_le hlt hle1
    · rcases hdisj1 with hlt1 | ⟨hperm1, heq1⟩
      · left; rw [heq]; exact hlt1
      · right
        exact ⟨List.Perm.trans hperm hperm1, by rw [heq, heq1]⟩

/-- Specification of one full pass of the optimizer loop. -/
theorem doPass_spec {α : Type} [LinearOrderedField α] (D : Nat → Nat → α)
    (n k : Nat) (ms : List Nat) (bc : α)
    (hval : ValidMedoids n k ms) (hbc : bc = cost D n ms) :
    ValidMedoids n k (doPass D n ms bc).1 ∧
      (doPass D n ms bc).2 = cost D n (doPass D n ms bc).1 ∧
      (doPass D n ms bc).2 ≤ bc ∧
      ((doPass D n ms bc).2 < bc ∨
        ((doPass D n ms bc).1.Perm ms ∧ (doPass D n ms bc).2 = bc)) :=
  passFold_spec D n k ms ms bc hval hbc hval.1 (fun _ hx => hx)

/-- Validity and the cost bookkeeping are preserved to the state the
optimizer loop returns. -/
theorem pamLoop_spec {α : Type} [LinearOrderedField α] (D : Nat → Nat → α)
    (n k : Nat) : ∀ (fuel : Nat) (ms : List Nat) (bc : α),
    ValidMedoids n k ms → bc = cost D n ms →
    ∀ r, pamLoop D n fuel ms bc = some r →
      ValidMedoids n k r.1 ∧ r.2 = cost D n r.1 ∧ r.2 ≤ bc := by
  intro fuel
  induction fuel with
  | zero => intro ms bc _ _ r hr; simp [pamLoop] at hr
  | succ fuel ih =>
    intro ms bc hval hbc r hr
    obtain ⟨hv, hc, hl, _⟩ := doPass_spec D n k ms bc hval hbc
    unfold pamLoop at hr
    by_cases hset : (doPass D n ms bc).1.toFinset = ms.toFinset
    · simp only [hset, if_true] at hr
      cases hr
      exact ⟨hv, hc, hl⟩
    · simp only [hset, if_false] at hr
      obtain ⟨h1, h2, h3⟩ := ih (doPass D n ms bc).1 (doPass D n ms bc).2 hv hc r hr
      exact ⟨h1, h2, le_trans h3 hl⟩

/-- C5: whenever the tracked best cost equals the cost of the current
medoid list (the loop invariant of the source), each remove-then-add
replacement of a medoid produces a medoid list whose cost does not exceed
the cost of the list before the swap, and the tracked best cost after the
swap is exactly the cost of the new list. -/
theorem C5_cost_monotone {α : Type} [LinearOrderedField α] (D : Nat → Nat → α)
    (n k : Nat) (ms : List Nat) (m : Nat) (bc : α)
    (hval : ValidMedoids n k ms) (hm : m ∈ ms) (hbc : bc = cost D n ms) :
    cost D n (passStep D n (ms, bc) m).1 ≤ cost D n ms ∧
      (passStep D n (ms, bc) m).2 = cost D n (passStep D n (ms, bc) m).1 := by
  obtain ⟨_, hc, hle, _, _⟩ := passStep_spec D n k ms m bc hval hm hbc
  constructor
  · rw [← hc]; exact le_trans hle (le_of_eq hbc)
  · exact hc

/-- Witness for C5 at a concrete input. -/
theorem C5_cost_monotone_witness :
    ValidMedoids 1 1 [0] ∧ (0 : Nat) ∈ [0] ∧
      (0 : ℚ) = cost (fun _ _ => (0 : ℚ)) 1 [0] ∧
      (cost (fun _ _ => (0 : ℚ)) 1
          (passStep (fun _ _ => (0 : ℚ)) 1 ([0], 0) 0).1 ≤
        cost (fun _ _ => (0 : ℚ)) 1 [0] ∧
        (passStep (fun _ _ => (0 : ℚ)) 1 ([0], 0) 0).2 =
          cost (fun _ _ => (0 : ℚ)) 1
            (passStep (fun _ _ => (0 : ℚ)) 1 ([0], 0) 0).1) :=
  ⟨⟨by decide, by decide, by decide⟩, by decide, by simp [cost, rowMin],
    C5_cost_monotone (fun _ _ => (0 : ℚ)) 1 1 [0] 0 0
      ⟨by decide, by decide, by decide⟩ (by decide) (by simp [cost, rowMin])⟩

/-- C6: for a valid initial medoid list, the medoid list after every swap
application inside the optimizer loop, and the medoid list the loop
returns at termination, always hold exactly k pairwise distinct valid row
indices. -/
theorem C6_medoid_list_validity {α : Type} [LinearOrderedField α]
    (D : Nat → Nat → α) (n k : Nat) (ms : List Nat)
    (hval : ValidMedoids n k ms) :
    (∀ m ∈ ms, ∀ bc : α, bc = cost D n ms →
        ValidMedoids n k (passStep D n (ms, bc) m).1) ∧
      (∀ fuel r, pamLoop D n fuel ms (cost D n ms) = some r →
        ValidMedoids n k r.1) := by
  constructor
  · intro m hm bc hbc
    exact (passStep_spec D n k ms m bc hval hm hbc).1
  · intro fuel r hr
    exact (pamLoop_spec D n k fuel ms (cost D n ms) hval rfl r hr).1

/-- Witness for C6 at a concrete input. -/
theorem C6_medoid_list_validity_witness :
    ValidMedoids 1 1 [0] ∧
      ((∀ m ∈ [0], ∀ bc : ℚ, bc = cost (fun _ _ => (0 : ℚ)) 1 [0] →
          ValidMedoids 1 1 (passStep (fun _ _ => (0 : ℚ)) 1 ([0], bc) m).1) ∧
        (∀ fuel r,
          pamLoop (fun _ _ => (0 : ℚ)) 1 fuel [0]
              (cost (fun _ _ => (0 : ℚ)) 1 [0]) = some r →
            ValidMedoids 1 1 r.1)) :=
  ⟨⟨by decide, by decide, by decide⟩,
    C6_medoid_list_validity (fun _ _ => (0 : ℚ)) 1 1 [0]
      ⟨by decide, by decide, by decide⟩⟩

/-- Unfolding equation of the optimizer loop for positive fuel. -/
theorem pamLoop_succ {α : Type} [LinearOrderedField α] (D : Nat → Nat → α)
    (n fuel : Nat) (ms : List Nat) (bc : α) :
    pamLoop D n (fuel + 1) ms bc =
      if (doPass D n ms bc).1.toFinset = ms.toFinset then
        some (doPass D n ms bc)
      else pamLoop D n fuel (doPass D n ms bc).1 (doPass D n ms bc).2 := rfl

/-- When no candidate strictly beats the running best cost, the candidate
scan leaves its state unchanged. -/
theorem scanFold_no_improve {α : Type} [LinearOrderedField α]
    (D : Nat → Nat → α) (n : Nat) (ms : List Nat) (m : Nat) (bc : α)
    (H : ∀ c, c < n → c ∉ ms → ¬ cost D n (ms.erase m ++ [c]) < bc) :
    ∀ cs : List Nat, (∀ c ∈ cs, c < n) →
      cs.foldl (scanStep D n ms m) (bc, m) = (bc, m) := by
  intro cs
  induction cs with
  | nil => intro _; rfl
  | cons c cs ih =>
    intro hcs
    have hstep : scanStep D n ms m (bc, m) c = (bc, m) := by
      by_cases hmem : c ∈ ms
      · simp [scanStep, hmem]
      · simp [scanStep, hmem, H c (hcs c (List.mem_cons_self _ _)) hmem]
    rw [List.foldl_cons, hstep]
    exact ih (fun x hx => hcs x (List.mem_cons_of_mem _ hx))

/-- Under the no-improvement hypothesis (phrased on the snapshot list),
the pass fold only rotates the working list: the result is a permutation
of the snapshot and the best cost is unchanged. -/
theorem passFold_no_improve {α : Type} [LinearOrderedField α]
    (D : Nat → Nat → α) (n : Nat) (ms : List Nat) (_hne : ms ≠ [])
    (Hno : ∀ m ∈ ms, ∀ c, c < n → c ∉ ms →
      ¬ cost D n (ms.erase m ++ [c]) < cost D n ms) :
    ∀ (todo : List Nat) (cur : List Nat), (∀ x ∈ todo, x ∈ cur) →
      cur.Perm ms →
      (todo.foldl (passStep D n) (cur, cost D n ms)).1.Perm ms ∧
        (todo.foldl (passStep D n) (cur, cost D n ms)).2 = cost D n ms := by
  intro todo
  induction todo with
  | nil => intro cur _ hp; exact ⟨hp, rfl⟩
  | cons m todo ih =>
    intro cur hsub hp
    have hm : m ∈ cur := hsub m (List.mem_cons_self _ _)
    have hmms : m ∈ ms := hp.mem_iff.1 hm
    have hscan : scanCandidates D n cur m (cost D n ms) = (cost D n ms, m) := by
      unfold scanCandidates
      refine scanFold_no_improve D n cur m (cost D n ms) ?_
        (List.range n) (fun c hc => List.mem_range.1 hc)
      intro c hc hcc
      have hcms : c ∉ ms := fun hx => hcc (hp.mem_iff.2 hx)
      have hpc : (cur.erase m ++ [c]).Perm (ms.erase m ++ [c]) :=
        List.Perm.append_right [c] (List.Perm.erase m hp)
      have hceq : cost D n (cur.erase m ++ [c]) =
          cost D n (ms.erase m ++ [c]) := by
        refine cost_perm D n hpc ?_
        intro h
        exact absurd (List.append_eq_nil.1 h).2 (by simp)
      rw [hceq]
      exact Hno m hmms c hc hcms
    have hstep : passStep D n (cur, cost D n ms) m =
        (cur.erase m ++ [m], cost D n ms) := by
      unfold passStep
      rw [hscan]
    have hp2 : (cur.erase m ++ [m]).Perm ms :=
      List.Perm.trans
        (List.Perm.trans (List.perm_append_singleton _ _)
          (List.perm_cons_erase hm).symm) hp
    have hsub2 : ∀ x ∈ todo, x ∈ cur.erase m ++ [m] := by
      intro x hx
      exact (mem_erase_append_self hm x).2 (hsub x (List.mem_cons_of_mem _ hx))
    rw [List.foldl_cons, hstep]
    exact ih (cur.erase m ++ [m]) hsub2 hp2

/-- The finite set of costs of the medoid lists drawn from the candidate
subsets of size k of the n row indices, used as a termination measure. -/
def costValues {α : Type} [LinearOrderedField α] [DecidableEq α]
    (D : Nat → Nat → α) (n k : Nat) : Finset α :=
  ((Finset.range n).powersetCard k).image
    (fun S => cost D n (S.sort (· ≤ ·)))

/-- The cost of a valid medoid list is one of the candidate cost values. -/
theorem cost_mem_costValues {α : Type} [LinearOrderedField α] [DecidableEq α]
    (D : Nat → Nat → α) (n k : Nat) (ms : List Nat)
    (hval : ValidMedoids n k ms) (hne : ms ≠ []) :
    cost D n ms ∈ costValues D n k := by
  refine Finset.mem_image.2 ⟨ms.toFinset, ?_, ?_⟩
  · refine Finset.mem_powersetCard.2 ⟨?_, ?_⟩
    · intro x hx
      exact Finset.mem_range.2 (hval.2.2 x (List.mem_toFinset.1 hx))
    · rw [List.toFinset_card_of_nodup hval.1, hval.2.1]
  · have hperm : (ms.toFinset.sort (· ≤ ·)).Perm ms := by
      apply List.perm_of_nodup_nodup_toFinset_eq (Finset.sort_nodup _ _) hval.1
      simp [Finset.sort_toFinset]
    refine cost_perm D n hperm ?_
    intro h
    rw [h] at hperm
    exact hne hperm.symm.eq_nil

/-- With fuel exceeding the number of cost values below the current cost,
the optimizer loop reaches its convergence break. -/
theorem pamLoop_terminates {α : Type} [LinearOrderedField α] [DecidableEq α]
    (D : Nat → Nat → α) (n k : Nat) :
    ∀ (N : Nat) (ms : List Nat) (bc : α), ValidMedoids n k ms → ms ≠ [] →
      bc = cost D n ms →
      ((costValues D n k).filter (fun x => x < bc)).card ≤ N →
      ∃ r, pamLoop D n (N + 1) ms bc = some r := by
  intro N
  induction N with
  | zero =>
    intro ms bc hval hne hbc hcard
    rw [pamLoop_succ]
    by_cases hset : (doPass D n ms bc).1.toFinset = ms.toFinset
    · rw [if_pos hset]; exact ⟨doPass D n ms bc, rfl⟩
    · exfalso
      obtain ⟨hv, hc, _, hd⟩ := doPass_spec D n k ms bc hval hbc
      rcases hd with hlt | ⟨hperm, _⟩
      · have hmem : (doPass D n ms bc).2 ∈
            (costValues D n k).filter (fun x => x < bc) := by
          refine Finset.mem_filter.2 ⟨?_, hlt⟩
          rw [hc]
          refine cost_mem_costValues D n k _ hv ?_
          intro h
          have : ms.length = 0 := by
            have h1 := hv.2.1
            rw [h] at h1
            rw [hval.2.1, ← h1]
            rfl
          exact hne (List.length_eq_zero.1 this)
        have : 0 <
            ((costValues D n k).filter (fun x => x < bc)).card :=
          Finset.card_pos.2 ⟨_, hmem⟩
        omega
      · exact hset (List.toFinset_eq_of_perm _ _ hperm)
  | succ N ih =>
    intro ms bc hval hne hbc hcard
    rw [pamLoop_succ]
    by_cases hset : (doPass D n ms bc).1.toFinset = ms.toFinset
    · rw [if_pos hset]; exact ⟨doPass D n ms bc, rfl⟩
    · rw [if_neg hset]
      obtain ⟨hv, hc, _, hd⟩ := doPass_spec D n k ms bc hval hbc
      rcases hd with hlt | ⟨hperm, _⟩
      · have hne2 : (doPass D n ms bc).1 ≠ [] := by
          intro h
          have h1 := hv.2.1
          rw [h] at h1
          have h2 : ms.length = 0 := by rw [hval.2.1, ← h1]; rfl
          exact hne (List.length_eq_zero.1 h2)
        have hmem : (doPass D n ms bc).2 ∈
            (costValues D n k).filter (fun x => x < bc) := by
          refine Finset.mem_filter.2 ⟨?_, hlt⟩
          rw [hc]
          exact cost_mem_costValues D n k _ hv hne2
        have hssub : (costValues D n k).filter
              (fun x => x < (doPass D n ms bc).2) ⊂
            (costValues D n k).filter (fun x => x < bc) := by
          refine (Finset.ssubset_iff_of_subset ?_).2
            ⟨(doPass D n ms bc).2, hmem, by simp⟩
          intro x hx
          rcases Finset.mem_filter.1 hx with ⟨h1, h2⟩
          exact Finset.mem_filter.2 ⟨h1, lt_trans h2 hlt⟩
        have hcard2 : ((costValues D n k).filter
            (fun x => x < (doPass D n ms bc).2)).card ≤ N := by
          have := Finset.card_lt_card hssub
          omega
        exact ih (doPass D n ms bc).1 (doPass D n ms bc).2 hv hne2 hc hcard2
      · exact absurd (List.toFinset_eq_of_perm _ _ hperm) hset

/-- C4: for a valid initial medoid list the optimizer loop terminates
within finitely many passes (some fuel makes it return), and when no
candidate swap strictly beats the initial cost the loop terminates after
exactly one pass. -/
theorem C4_loop_terminates {α : Type} [LinearOrderedField α]
    (D : Nat → Nat → α) (n k : Nat) (ms : List Nat)
    (hval : ValidMedoids n k ms) (hne : ms ≠ []) :
    (∃ fuel r, pamLoop D n fuel ms (cost D n ms) = some r) ∧
      ((∀ m ∈ ms, ∀ c, c < n → c ∉ ms →
          ¬ cost D n (ms.erase m ++ [c]) < cost D n ms) →
        ∃ r, pamLoop D n 1 ms (cost D n ms) = some r) := by
  constructor
  · classical
    obtain ⟨r, hr⟩ := pamLoop_terminates D n k
      (((costValues D n k).filter
        (fun x => x < cost D n ms)).card) ms (cost D n ms) hval hne rfl
      (le_refl _)
    exact ⟨_, r, hr⟩
  · intro Hno
    have hfold := passFold_no_improve D n ms hne Hno ms ms
      (fun _ hx => hx) (List.Perm.refl ms)
    rw [pamLoop_succ]
    have hset : (doPass D n ms (cost D n ms)).1.toFinset = ms.toFinset :=
      List.toFinset_eq_of_perm _ _ hfold.1
    rw [if_pos hset]
    exact ⟨_, rfl⟩

/-- Witness for C4 at a concrete input. -/
theorem C4_loop_terminates_witness :
    ValidMedoids 1 1 [0] ∧ ([0] : List Nat) ≠ [] ∧
      ((∃ fuel r,
          pamLoop (fun _ _ => (0 : ℚ)) 1 fuel [0]
            (cost (fun _ _ => (0 : ℚ)) 1 [0]) = some r) ∧
        ((∀ m ∈ [0], ∀ c, c < 1 → c ∉ [0] →
            ¬ cost (fun _ _ => (0 : ℚ)) 1 (([0] : List Nat).erase m ++ [c]) <
              cost (fun _ _ => (0 : ℚ)) 1 [0]) →
          ∃ r, pamLoop (fun _ _ => (0 : ℚ)) 1 1 [0]
            (cost (fun _ _ => (0 : ℚ)) 1 [0]) = some r)) :=
  ⟨⟨by decide, by decide, by decide⟩, by decide,
    C4_loop_terminates (fun _ _ => (0 : ℚ)) 1 1 [0]
      ⟨by decide, by decide, by decide⟩ (by decide)⟩

/-- Specification of the argmin scan: either no element strictly beats
the seed and the seed index is returned, or the returned index locates,
relative to the position counter, the first occurrence of the strict
minimum of the scanned elements. -/
theorem argminAux_spec {α : Type} [LinearOrderedField α] :
    ∀ (xs : List α) (bv : α) (bi cur : Nat), bi < cur →
      (argminAux xs bv bi cur = bi ∧ ∀ j, j < xs.length → bv ≤ xs.getD j 0) ∨
      (∃ j, j < xs.length ∧ argminAux xs bv bi cur = cur + j ∧
        xs.getD j 0 < bv ∧
        (∀ j2, j2 < xs.length → xs.getD j 0 ≤ xs.getD j2 0) ∧
        (∀ j2, j2 < j → xs.getD j 0 < xs.getD j2 0)) := by
  intro xs
  induction xs with
  | nil =>
    intro bv bi cur _
    left
    exact ⟨rfl, fun j hj => absurd hj (by simp)⟩
  | cons x xs ih =>
    intro bv bi cur hbi
    by_cases hlt : x < bv
    · have hrec : argminAux (x :: xs) bv bi cur = argminAux xs x cur (cur + 1) := by
        simp [argminAux, hlt]
      rcases ih x cur (cur + 1) (Nat.lt_succ_self cur) with
        ⟨he, hall⟩ | ⟨j, hj, he, hv, hmin, hfst⟩
      · right
        refine ⟨0, by simp, by rw [hrec, he, Nat.add_zero],
          by simpa using hlt, ?_, ?_⟩
        · intro j2 hj2
          cases j2 with
          | zero => simp
          | succ j2 =>
            simp only [List.getD_cons_zero, List.getD_cons_succ]
            exact hall j2 (by simpa using hj2)
        · intro j2 hj2
          exact absurd hj2 (Nat.not_lt_zero j2)
      · right
        refine ⟨j + 1, by simpa using hj, ?_, ?_, ?_, ?_⟩
        · rw [hrec, he]; omega
        · simpa using lt_trans hv hlt
        · intro j2 hj2
          cases j2 with
          | zero => simpa using le_of_lt hv
          | succ j2 => simpa using hmin j2 (by simpa using hj2)
        · intro j2 hj2
          cases j2 with
          | zero => simpa using hv
          | succ j2 => simpa using hfst j2 (by omega)
    · have hrec : argminAux (x :: xs) bv bi cur = argminAux xs bv bi (cur + 1) := by
        simp [argminAux, hlt]
      have hble : bv ≤ x := not_lt.1 hlt
      rcases ih bv bi (cur + 1) (by omega) with
        ⟨he, hall⟩ | ⟨j, hj, he, hv, hmin, hfst⟩
      · left
        refine ⟨by rw [hrec, he], ?_⟩
        intro j hj2
        cases j with
        | zero => simpa using hble
        | succ j => simpa using hall j (by simpa using hj2)
      · right
        refine ⟨j + 1, by simpa using hj, ?_, ?_, ?_, ?_⟩
        · rw [hrec, he]; omega
        · simpa using hv
        · intro j2 hj2
          cases j2 with
          | zero => simpa using le_of_lt (lt_of_lt_of_le hv hble)
          | succ j2 => simpa using hmin j2 (by simpa using hj2)
        · intro j2 hj2
          cases j2 with
          | zero => simpa using lt_of_lt_of_le hv hble
          | succ j2 => simpa using hfst j2 (by omega)

/-- Specification of the argmin over a nonempty list: the returned
position is valid, attains the minimum, and every strictly earlier
position holds a strictly larger value (first-occurrence argmin). -/
theorem argminIdx_spec {α : Type} [LinearOrderedField α] (l : List α)
    (hne : l ≠ []) :
    argminIdx l < l.length ∧
      (∀ j, j < l.length → l.getD (argminIdx l) 0 ≤ l.getD j 0) ∧
      (∀ j, j < argminIdx l → l.getD (argminIdx l) 0 < l.getD j 0) := by
  cases l with
  | nil => exact absurd rfl hne
  | cons x xs =>
    have hdef : argminIdx (x :: xs) = argminAux xs x 0 1 := rfl
    rcases argminAux_spec xs x 0 1 (by omega) with
      ⟨he, hall⟩ | ⟨j, hj, he, hv, hmin, hfst⟩
    · rw [hdef, he]
      refine ⟨by simp, ?_, ?_⟩
      · intro j hj
        cases j with
        | zero => simp
        | succ j => simpa using hall j (by simpa using hj)
      · intro j hj
        exact absurd hj (Nat.not_lt_zero j)
    · rw [hdef, he, show 1 + j = j + 1 by omega]
      refine ⟨by simpa using hj, ?_, ?_⟩
      · intro j2 hj2
        cases j2 with
        | zero => simpa using le_of_lt hv
        | succ j2 => simpa using hmin j2 (by simpa using hj2)
      · intro j2 hj2
        cases j2 with
        | zero => simpa using hv
        | succ j2 => simpa using hfst j2 (by omega)

/-- C1 (amended): for a valid initial medoid list of positive length k,
a returning run yields a medoid list of length k, an assignment sequence
of length n, and every assignment entry is a column position into the
medoid list, that is, strictly below k (the assigned medoid is the entry
of the medoid list at that position, not the row index itself). -/
theorem C1_assignment_shape {α : Type} [LinearOrderedField α]
    (D : Nat → Nat → α) (n k : Nat) (ms : List Nat) (fuel : Nat)
    (hval : ValidMedoids n k ms) (hk : 0 < k) :
    ∀ r, cluster_PAM D n ms fuel = some r →
      r.1.length = k ∧ r.2.1.length = n ∧ ∀ x ∈ r.2.1, x < k := by
  intro r hrun
  unfold cluster_PAM at hrun
  cases hloop : pamLoop D n fuel ms (cost D n ms) with
  | none => rw [hloop] at hrun; exact absurd hrun (by simp)
  | some p =>
    rw [hloop] at hrun
    obtain rfl := Option.some.inj hrun
    obtain ⟨hval2, _, _⟩ := pamLoop_spec D n k fuel ms (cost D n ms) hval rfl p hloop
    have hplen : p.1.length = k := hval2.2.1
    have hpne : p.1 ≠ [] := by
      intro h
      rw [h] at hplen
      simp at hplen
      omega
    refine ⟨hplen, by simp [assignClusters], ?_⟩
    intro x hx
    unfold assignClusters at hx
    obtain ⟨i, _, hEq⟩ := List.mem_map.1 hx
    have hmapne : p.1.map (fun m => D i m) ≠ [] := by simpa using hpne
    have hlt := (argminIdx_spec (p.1.map (fun m => D i m)) hmapne).1
    rw [List.length_map, hplen] at hlt
    rw [← hEq]
    exact hlt

/-- Witness for C1 at a concrete input. -/
theorem C1_assignment_shape_witness :
    ValidMedoids 1 1 [0] ∧ 0 < 1 ∧
      (∀ r, cluster_PAM (fun _ _ => (0 : ℚ)) 1 [0] 1 = some r →
        r.1.length = 1 ∧ r.2.1.length = 1 ∧ ∀ x ∈ r.2.1, x < 1) :=
  ⟨⟨by decide, by decide, by decide⟩, by decide,
    C1_assignment_shape (fun _ _ => (0 : ℚ)) 1 1 [0] 1
      ⟨by decide, by decide, by decide⟩ (by decide)⟩

/-- Concrete data of the C1 counterexample: two points of the plane at
Euclidean distance 1. -/
noncomputable def rowsA : List (List ℝ) := [[0, 0], [1, 0]]

/-- Distance-matrix entries of the counterexample data. -/
theorem dA00 : distMat rowsA 0 0 = 0 := by norm_num [distMat, rowsA, sqDist]

/-- Distance-matrix entries of the counterexample data. -/
theorem dA01 : distMat rowsA 0 1 = 1 := by norm_num [distMat, rowsA, sqDist]

/-- Distance-matrix entries of the counterexample data. -/
theorem dA10 : distMat rowsA 1 0 = 1 := by norm_num [distMat, rowsA, sqDist]

/-- Distance-matrix entries of the counterexample data. -/
theorem dA11 : distMat rowsA 1 1 = 0 := by norm_num [distMat, rowsA, sqDist]

/-- Two-element index range, fully evaluated. -/
theorem hrange2 : List.range 2 = [0, 1] := rfl

/-- Cost of the singleton medoid list holding row 1. -/
theorem costA_1 : cost (distMat rowsA) 2 [1] = 1 := by
  norm_num [cost, hrange2, rowMin, dA01, dA11]

/-- Cost of the singleton medoid list holding row 0. -/
theorem costA_0 : cost (distMat rowsA) 2 [0] = 1 := by
  norm_num [cost, hrange2, rowMin, dA00, dA10]

/-- The single pass of the counterexample run changes nothing. -/
theorem passA : doPass (distMat rowsA) 2 [1] 1 = ([1], 1) := by
  norm_num [doPass, passStep, scanCandidates, hrange2, scanStep, costA_0]

/-- The optimizer loop of the counterexample run converges at once. -/
theorem loopA : pamLoop (distMat rowsA) 2 2 [1] (cost (distMat rowsA) 2 [1]) =
    some ([1], 1) := by
  rw [costA_1, show (2 : Nat) = 1 + 1 from rfl, pamLoop_succ, passA]
  norm_num

/-- The full counterexample run. -/
theorem runA : cluster_PAM (distMat rowsA) 2 [1] 2 = some ([1], [0, 0], 1) := by
  rw [cluster_PAM, loopA]
  norm_num [assignClusters, hrange2, argminIdx, argminAux, dA01, dA11, costA_1]

/-- C1 is refuted as stated: on the two-point data set with initial medoid
list consisting of row 1 (a possible random draw), the returned cluster
assignment sequence is 0, 0 while the returned medoid index list is the
singleton 1, so the assignment entries are not members of the medoid
list (they are column positions into it). -/
theorem C1_counterexample :
    cluster_PAM (distMat rowsA) 2 [1] 2 = some ([1], [0, 0], 1) ∧
      ¬ (∀ x ∈ ([0, 0] : List Nat), x ∈ ([1] : List Nat)) :=
  ⟨runA, by decide⟩

/-- C7 (amended): the finalizer assigns each point the first column
position of the restricted matrix attaining the minimal distance: the
distance at the assigned position is minimal, and every strictly earlier
column of the restricted matrix holds a strictly larger distance.  Ties
therefore go to the medoid occurring earliest in the converged medoid
list, which need not be the tied medoid of lowest row index. -/
theorem C7_tie_break_first_column {α : Type} [LinearOrderedField α]
    (D : Nat → Nat → α) (n : Nat) (medoids : List Nat) (i : Nat)
    (hi : i < n) (hne : medoids ≠ []) :
    (assignClusters D n medoids).getD i 0 < medoids.length ∧
      (∀ j, j < medoids.length →
        D i (medoids.getD ((assignClusters D n medoids).getD i 0) 0) ≤
          D i (medoids.getD j 0)) ∧
      (∀ j, j < (assignClusters D n medoids).getD i 0 →
        D i (medoids.getD ((assignClusters D n medoids).getD i 0) 0) <
          D i (medoids.getD j 0)) := by
  have hmapne : medoids.map (fun m => D i m) ≠ [] := by simpa using hne
  obtain ⟨h1, h2, h3⟩ := argminIdx_spec (medoids.map (fun m => D i m)) hmapne
  have hC : (assignClusters D n medoids).getD i 0 =
      argminIdx (medoids.map (fun m => D i m)) := by
    unfold assignClusters
    rw [List.getD_eq_getElem _ _ (by simpa using hi)]
    simp
  have hlen : (medoids.map (fun m => D i m)).length = medoids.length :=
    List.length_map _ _
  have hconv : ∀ j, j < medoids.length →
      (medoids.map (fun m => D i m)).getD j 0 = D i (medoids.getD j 0) := by
    intro j hj
    rw [List.getD_eq_getElem _ _ (by simpa using hj),
      List.getD_eq_getElem _ _ hj]
    simp
  rw [hC]
  have hidx : argminIdx (medoids.map (fun m => D i m)) < medoids.length := by
    rw [← hlen]; exact h1
  refine ⟨hidx, ?_, ?_⟩
  · intro j hj
    rw [← hconv _ hidx, ← hconv _ hj]
    exact h2 j (by rw [hlen]; exact hj)
  · intro j hj
    rw [← hconv _ hidx, ← hconv _ (lt_trans hj hidx)]
    exact h3 j hj

/-- Witness for C7 at a concrete input. -/
theorem C7_tie_break_first_column_witness :
    0 < 1 ∧ ([1, 0] : List Nat) ≠ [] ∧
      ((assignClusters (fun _ _ => (0 : ℚ)) 1 [1, 0]).getD 0 0 <
          ([1, 0] : List Nat).length ∧
        (∀ j, j < ([1, 0] : List Nat).length →
          (fun _ _ => (0 : ℚ)) 0 (([1, 0] : List Nat).getD
              ((assignClusters (fun _ _ => (0 : ℚ)) 1 [1, 0]).getD 0 0) 0) ≤
            (fun _ _ => (0 : ℚ)) 0 (([1, 0] : List Nat).getD j 0)) ∧
        (∀ j, j < (assignClusters (fun _ _ => (0 : ℚ)) 1 [1, 0]).getD 0 0 →
          (fun _ _ => (0 : ℚ)) 0 (([1, 0] : List Nat).getD
              ((assignClusters (fun _ _ => (0 : ℚ)) 1 [1, 0]).getD 0 0) 0) <
            (fun _ _ => (0 : ℚ)) 0 (([1, 0] : List Nat).getD j 0))) :=
  ⟨by decide, by decide,
    C7_tie_break_first_column (fun _ _ => (0 : ℚ)) 1 [1, 0] 0
      (by decide) (by decide)⟩

/-- Concrete data of the C7 counterexample: three collinear points, the
third equidistant from the first two. -/
noncomputable def rowsB : List (List ℝ) := [[0, 0], [2, 0], [1, 0]]

/-- The square root of four. -/
theorem sqrt_four : Real.sqrt 4 = 2 := by
  rw [show (4 : ℝ) = 2 ^ 2 by norm_num, Real.sqrt_sq (by norm_num)]

/-- Distance-matrix entries of the tie counterexample data. -/
theorem dB00 : distMat rowsB 0 0 = 0 := by norm_num [distMat, rowsB, sqDist]

/-- Distance-matrix entries of the tie counterexample data. -/
theorem dB01 : distMat rowsB 0 1 = 2 := by
  norm_num [distMat, rowsB, sqDist, sqrt_four]

/-- Distance-matrix entries of the tie counterexample data. -/
theorem dB02 : distMat rowsB 0 2 = 1 := by norm_num [distMat, rowsB, sqDist]

/-- Distance-matrix entries of the tie counterexample data. -/
theorem dB10 : distMat rowsB 1 0 = 2 := by
  norm_num [distMat, rowsB, sqDist, sqrt_four]

/-- Distance-matrix entries of the tie counterexample data. -/
theorem dB11 : distMat rowsB 1 1 = 0 := by norm_num [distMat, rowsB, sqDist]

/-- Distance-matrix entries of the tie counterexample data. -/
theorem dB12 : distMat rowsB 1 2 = 1 := by norm_num [distMat, rowsB, sqDist]

/-- Distance-matrix entries of the tie counterexample data. -/
theorem dB20 : distMat rowsB 2 0 = 1 := by norm_num [distMat, rowsB, sqDist]

/-- Distance-matrix entries of the tie counterexample data. -/
theorem dB21 : distMat rowsB 2 1 = 1 := by norm_num [distMat, rowsB, sqDist]

/-- Distance-matrix entries of the tie counterexample data. -/
theorem dB22 : distMat rowsB 2 2 = 0 := by norm_num [distMat, rowsB, sqDist]

/-- Three-element index range, fully evaluated. -/
theorem hrange3 : List.range 3 = [0, 1, 2] := rfl

/-- Costs of the medoid lists reached in the tie counterexample run. -/
theorem costB_10 : cost (distMat rowsB) 3 [1, 0] = 1 := by
  norm_num [cost, hrange3, rowMin, dB00, dB01, dB10, dB11, dB20, dB21, min_def]

/-- Costs of the medoid lists reached in the tie counterexample run. -/
theorem costB_01 : cost (distMat rowsB) 3 [0, 1] = 1 := by
  norm_num [cost, hrange3, rowMin, dB00, dB01, dB10, dB11, dB20, dB21, min_def]

/-- Costs of the medoid lists reached in the tie counterexample run. -/
theorem costB_02 : cost (distMat rowsB) 3 [0, 2] = 1 := by
  norm_num [cost, hrange3, rowMin, dB00, dB02, dB10, dB12, dB20, dB22, min_def]

/-- Costs of the medoid lists reached in the tie counterexample run. -/
theorem costB_12 : cost (distMat rowsB) 3 [1, 2] = 1 := by
  norm_num [cost, hrange3, rowMin, dB01, dB02, dB11, dB12, dB21, dB22, min_def]

/-- The single pass of the tie counterexample run only rotates the list. -/
theorem passB : doPass (distMat rowsB) 3 [1, 0] 1 = ([1, 0], 1) := by
  norm_num [doPass, passStep, scanCandidates, hrange3, scanStep,
    costB_02, costB_12]

/-- The optimizer loop of the tie counterexample run converges at once. -/
theorem loopB : pamLoop (distMat rowsB) 3 2 [1, 0]
    (cost (distMat rowsB) 3 [1, 0]) = some ([1, 0], 1) := by
  rw [costB_10, show (2 : Nat) = 1 + 1 from rfl, pamLoop_succ, passB]
  norm_num

/-- The full tie counterexample run. -/
theorem runB : cluster_PAM (distMat rowsB) 3 [1, 0] 2 =
    some ([1, 0], [1, 0, 0], 1) := by
  rw [cluster_PAM, loopB]
  norm_num [assignClusters, hrange3, argminIdx, argminAux, dB00, dB01, dB10,
    dB11, dB20, dB21, costB_10]

/-- C7 is refuted as stated: on the three-point data set, a run from the
initial medoid list 1, 0 (a possible random draw) converges to the medoid
list 1, 0; point 2 is equidistant from medoids 0 and 1, yet the finalizer
assigns it column 0, whose medoid is row 1, not the lowest tied medoid
index 0. -/
theorem C7_counterexample :
    cluster_PAM (distMat rowsB) 3 [1, 0] 2 = some ([1, 0], [1, 0, 0], 1) ∧
      distMat rowsB 2 0 = distMat rowsB 2 1 ∧
      ([1, 0] : List Nat).getD (([1, 0, 0] : List Nat).getD 2 0) 0 = 1 ∧
      (1 : Nat) ≠ 0 :=
  ⟨runB, by rw [dB20, dB21], by decide, by decide⟩

/-- Concrete data of the specification scenario: two tight pairs of
points far apart. -/
noncomputable def rowsC : List (List ℝ) := [[0, 0], [0, 1], [10, 10], [10, 11]]

/-- Distance-matrix entry of the scenario data. -/
theorem dC00 : distMat rowsC 0 0 = 0 := by
  norm_num [distMat, rowsC, sqDist]

/-- Distance-matrix entry of the scenario data. -/
theorem dC01 : distMat rowsC 0 1 = 1 := by
  norm_num [distMat, rowsC, sqDist]

/-- Distance-matrix entry of the scenario data. -/
theorem dC02 : distMat rowsC 0 2 = Real.sqrt 200 := by
  norm_num [distMat, rowsC, sqDist]

/-- Distance-matrix entry of the scenario data. -/
theorem dC03 : distMat rowsC 0 3 = Real.sqrt 221 := by
  norm_num [distMat, rowsC, sqDist]

/-- Distance-matrix entry of the scenario data. -/
theorem dC10 : distMat rowsC 1 0 = 1 := by
  norm_num [distMat, rowsC, sqDist]

/-- Distance-matrix entry of the scenario data. -/
theorem dC11 : distMat rowsC 1 1 = 0 := by
  norm_num [distMat, rowsC, sqDist]

/-- Distance-matrix entry of the scenario data. -/
theorem dC12 : distMat rowsC 1 2 = Real.sqrt 181 := by
  norm_num [distMat, rowsC, sqDist]

/-- Distance-matrix entry of the scenario data. -/
theorem dC13 : distMat rowsC 1 3 = Real.sqrt 200 := by
  norm_num [distMat, rowsC, sqDist]

/-- Distance-matrix entry of the scenario data. -/
theorem dC20 : distMat rowsC 2 0 = Real.sqrt 200 := by
  norm_num [distMat, rowsC, sqDist]

/-- Distance-matrix entry of the scenario data. -/
theorem dC21 : distMat rowsC 2 1 = Real.sqrt 181 := by
  norm_num [distMat, rowsC, sqDist]

/-- Distance-matrix entry of the scenario data. -/
theorem dC22 : distMat rowsC 2 2 = 0 := by
  norm_num [distMat, rowsC, sqDist]

/-- Distance-matrix entry of the scenario data. -/
theorem dC23 : distMat rowsC 2 3 = 1 := by
  norm_num [distMat, rowsC, sqDist]

/-- Distance-matrix entry of the scenario data. -/
theorem dC30 : distMat rowsC 3 0 = Real.sqrt 221 := by
  norm_num [distMat, rowsC, sqDist]

/-- Distance-matrix entry of the scenario data. -/
theorem dC31 : distMat rowsC 3 1 = Real.sqrt 200 := by
  norm_num [distMat, rowsC, sqDist]

/-- Distance-matrix entry of the scenario data. -/
theorem dC32 : distMat rowsC 3 2 = 1 := by
  norm_num [distMat, rowsC, sqDist]

/-- Distance-matrix entry of the scenario data. -/
theorem dC33 : distMat rowsC 3 3 = 0 := by
  norm_num [distMat, rowsC, sqDist]

/-- Four-element index range, fully evaluated. -/
theorem hrange4 : List.range 4 = [0, 1, 2, 3] := rfl

/-- Numeric bound on a square root of the scenario data. -/
theorem h1lt181 : (1 : ℝ) < Real.sqrt 181 :=
  (Real.lt_sqrt (by norm_num)).mpr (by norm_num)

/-- Numeric bound on a square root of the scenario data. -/
theorem h0lt181 : (0 : ℝ) < Real.sqrt 181 := Real.sqrt_pos.mpr (by norm_num)

/-- Numeric bound on a square root of the scenario data. -/
theorem hn181lt0 : ¬ (Real.sqrt 181 < 0) := not_lt.2 (Real.sqrt_nonneg _)

/-- Numeric bound on a square root of the scenario data. -/
theorem hn181lt1 : ¬ (Real.sqrt 181 < 1) := not_lt.2 (le_of_lt h1lt181)

/-- Numeric bound on a square root of the scenario data. -/
theorem h1le181 : (1 : ℝ) ≤ Real.sqrt 181 := le_of_lt h1lt181

/-- Numeric bound on a square root of the scenario data. -/
theorem hn181le0 : ¬ (Real.sqrt 181 ≤ 0) := not_le.2 h0lt181

/-- Numeric bound on a square root of the scenario data. -/
theorem hn181le1 : ¬ (Real.sqrt 181 ≤ 1) := not_le.2 h1lt181

/-- Numeric bound on a square root of the scenario data. -/
theorem h1lt200 : (1 : ℝ) < Real.sqrt 200 :=
  (Real.lt_sqrt (by norm_num)).mpr (by norm_num)

/-- Numeric bound on a square root of the scenario data. -/
theorem h0lt200 : (0 : ℝ) < Real.sqrt 200 := Real.sqrt_pos.mpr (by norm_num)

/-- Numeric bound on a square root of the scenario data. -/
theorem hn200lt0 : ¬ (Real.sqrt 200 < 0) := not_lt.2 (Real.sqrt_nonneg _)

/-- Numeric bound on a square root of the scenario data. -/
theorem hn200lt1 : ¬ (Real.sqrt 200 < 1) := not_lt.2 (le_of_lt h1lt200)

/-- Numeric bound on a square root of the scenario data. -/
theorem h1le200 : (1 : ℝ) ≤ Real.sqrt 200 := le_of_lt h1lt200

/-- Numeric bound on a square root of the scenario data. -/
theorem hn200le0 : ¬ (Real.sqrt 200 ≤ 0) := not_le.2 h0lt200

/-- Numeric bound on a square root of the scenario data. -/
theorem hn200le1 : ¬ (Real.sqrt 200 ≤ 1) := not_le.2 h1lt200

/-- Numeric bound on a square root of the scenario data. -/
theorem h1lt221 : (1 : ℝ) < Real.sqrt 221 :=
  (Real.lt_sqrt (by norm_num)).mpr (by norm_num)

/-- Numeric bound on a square root of the scenario data. -/
theorem h0lt221 : (0 : ℝ) < Real.sqrt 221 := Real.sqrt_pos.mpr (by norm_num)

/-- Numeric bound on a square root of the scenario data. -/
theorem hn221lt0 : ¬ (Real.sqrt 221 < 0) := not_lt.2 (Real.sqrt_nonneg _)

/-- Numeric bound on a square root of the scenario data. -/
theorem hn221lt1 : ¬ (Real.sqrt 221 < 1) := not_lt.2 (le_of_lt h1lt221)

/-- Numeric bound on a square root of the scenario data. -/
theorem h1le221 : (1 : ℝ) ≤ Real.sqrt 221 := le_of_lt h1lt221

/-- Numeric bound on a square root of the scenario data. -/
theorem hn221le0 : ¬ (Real.sqrt 221 ≤ 0) := not_le.2 h0lt221

/-- Numeric bound on a square root of the scenario data. -/
theorem hn221le1 : ¬ (Real.sqrt 221 ≤ 1) := not_le.2 h1lt221

/-- Order of two square roots of the scenario data. -/
theorem h181le200 : Real.sqrt 181 ≤ Real.sqrt 200 := Real.sqrt_le_sqrt (by norm_num)

/-- Order of two square roots of the scenario data. -/
theorem hn200le181 : ¬ (Real.sqrt 200 ≤ Real.sqrt 181) :=
  not_le.2 (Real.sqrt_lt_sqrt (by norm_num) (by norm_num))

/-- Order of two square roots of the scenario data. -/
theorem hn200lt181 : ¬ (Real.sqrt 200 < Real.sqrt 181) :=
  not_lt.2 (Real.sqrt_le_sqrt (by norm_num))

/-- Order of two square roots of the scenario data. -/
theorem h181lt200 : Real.sqrt 181 < Real.sqrt 200 :=
  Real.sqrt_lt_sqrt (by norm_num) (by norm_num)

/-- Order of two square roots of the scenario data. -/
theorem h200le221 : Real.sqrt 200 ≤ Real.sqrt 221 := Real.sqrt_le_sqrt (by norm_num)

/-- Order of two square roots of the scenario data. -/
theorem hn221le200 : ¬ (Real.sqrt 221 ≤ Real.sqrt 200) :=
  not_le.2 (Real.sqrt_lt_sqrt (by norm_num) (by norm_num))

/-- Order of two square roots of the scenario data. -/
theorem hn221lt200 : ¬ (Real.sqrt 221 < Real.sqrt 200) :=
  not_lt.2 (Real.sqrt_le_sqrt (by norm_num))

/-- Order of two square roots of the scenario data. -/
theorem h200lt221 : Real.sqrt 200 < Real.sqrt 221 :=
  Real.sqrt_lt_sqrt (by norm_num) (by norm_num)

/-- Order of two square roots of the scenario data. -/
theorem h181le221 : Real.sqrt 181 ≤ Real.sqrt 221 := Real.sqrt_le_sqrt (by norm_num)

/-- Order of two square roots of the scenario data. -/
theorem hn221le181 : ¬ (Real.sqrt 221 ≤ Real.sqrt 181) :=
  not_le.2 (Real.sqrt_lt_sqrt (by norm_num) (by norm_num))

/-- Order of two square roots of the scenario data. -/
theorem hn221lt181 : ¬ (Real.sqrt 221 < Real.sqrt 181) :=
  not_lt.2 (Real.sqrt_le_sqrt (by norm_num))

/-- Order of two square roots of the scenario data. -/
theorem h181lt221 : Real.sqrt 181 < Real.sqrt 221 :=
  Real.sqrt_lt_sqrt (by norm_num) (by norm_num)

/-- The two appearing costs compare strictly. -/
theorem h2lt_s : (2 : ℝ) < Real.sqrt 181 + Real.sqrt 200 := by
  linarith [h1lt181, h1lt200]

/-- The two appearing costs compare strictly. -/
theorem hn_s_lt2 : ¬ (Real.sqrt 181 + Real.sqrt 200 < 2) :=
  not_lt.2 (le_of_lt h2lt_s)

/-- Cost of a two-element medoid list of the scenario data. -/
theorem costC01 : cost (distMat rowsC) 4 [0, 1] = Real.sqrt 181 + Real.sqrt 200 := by
  norm_num [cost, hrange4, rowMin, min_def, dC00, dC01, dC02, dC03, dC10, dC11, dC12, dC13, dC20, dC21, dC22, dC23, dC30, dC31, dC32, dC33,
    h1lt181, h1lt200, h1lt221, h0lt181, h0lt200, h0lt221, hn181lt0, hn200lt0, hn221lt0, hn181lt1, hn200lt1, hn221lt1, h1le181, h1le200, h1le221, hn181le0, hn200le0, hn221le0, hn181le1, hn200le1, hn221le1, h181le200, h200le221, h181le221, hn200le181, hn221le200, hn221le181, hn200lt181, hn221lt200, hn221lt181]

/-- Cost of a two-element medoid list of the scenario data. -/
theorem costC02 : cost (distMat rowsC) 4 [0, 2] = 2 := by
  norm_num [cost, hrange4, rowMin, min_def, dC00, dC01, dC02, dC03, dC10, dC11, dC12, dC13, dC20, dC21, dC22, dC23, dC30, dC31, dC32, dC33,
    h1lt181, h1lt200, h1lt221, h0lt181, h0lt200, h0lt221, hn181lt0, hn200lt0, hn221lt0, hn181lt1, hn200lt1, hn221lt1, h1le181, h1le200, h1le221, hn181le0, hn200le0, hn221le0, hn181le1, hn200le1, hn221le1, h181le200, h200le221, h181le221, hn200le181, hn221le200, hn221le181, hn200lt181, hn221lt200, hn221lt181]

/-- Cost of a two-element medoid list of the scenario data. -/
theorem costC03 : cost (distMat rowsC) 4 [0, 3] = 2 := by
  norm_num [cost, hrange4, rowMin, min_def, dC00, dC01, dC02, dC03, dC10, dC11, dC12, dC13, dC20, dC21, dC22, dC23, dC30, dC31, dC32, dC33,
    h1lt181, h1lt200, h1lt221, h0lt181, h0lt200, h0lt221, hn181lt0, hn200lt0, hn221lt0, hn181lt1, hn200lt1, hn221lt1, h1le181, h1le200, h1le221, hn181le0, hn200le0, hn221le0, hn181le1, hn200le1, hn221le1, h181le200, h200le221, h181le221, hn200le181, hn221le200, hn221le181, hn200lt181, hn221lt200, hn221lt181]

/-- Cost of a two-element medoid list of the scenario data. -/
theorem costC10 : cost (distMat rowsC) 4 [1, 0] = Real.sqrt 181 + Real.sqrt 200 := by
  norm_num [cost, hrange4, rowMin, min_def, dC00, dC01, dC02, dC03, dC10, dC11, dC12, dC13, dC20, dC21, dC22, dC23, dC30, dC31, dC32, dC33,
    h1lt181, h1lt200, h1lt221, h0lt181, h0lt200, h0lt221, hn181lt0, hn200lt0, hn221lt0, hn181lt1, hn200lt1, hn221lt1, h1le181, h1le200, h1le221, hn181le0, hn200le0, hn221le0, hn181le1, hn200le1, hn221le1, h181le200, h200le221, h181le221, hn200le181, hn221le200, hn221le181, hn200lt181, hn221lt200, hn221lt181]

/-- Cost of a two-element medoid list of the scenario data. -/
theorem costC12 : cost (distMat rowsC) 4 [1, 2] = 2 := by
  norm_num [cost, hrange4, rowMin, min_def, dC00, dC01, dC02, dC03, dC10, dC11, dC12, dC13, dC20, dC21, dC22, dC23, dC30, dC31, dC32, dC33,
    h1lt181, h1lt200, h1lt221, h0lt181, h0lt200, h0lt221, hn181lt0, hn200lt0, hn221lt0, hn181lt1, hn200lt1, hn221lt1, h1le181, h1le200, h1le221, hn181le0, hn200le0, hn221le0, hn181le1, hn200le1, hn221le1, h181le200, h200le221, h181le221, hn200le181, hn221le200, hn221le181, hn200lt181, hn221lt200, hn221lt181]

/-- Cost of a two-element medoid list of the scenario data. -/
theorem costC13 : cost (distMat rowsC) 4 [1, 3] = 2 := by
  norm_num [cost, hrange4, rowMin, min_def, dC00, dC01, dC02, dC03, dC10, dC11, dC12, dC13, dC20, dC21, dC22, dC23, dC30, dC31, dC32, dC33,
    h1lt181, h1lt200, h1lt221, h0lt181, h0lt200, h0lt221, hn181lt0, hn200lt0, hn221lt0, hn181lt1, hn200lt1, hn221lt1, h1le181, h1le200, h1le221, hn181le0, hn200le0, hn221le0, hn181le1, hn200le1, hn221le1, h181le200, h200le221, h181le221, hn200le181, hn221le200, hn221le181, hn200lt181, hn221lt200, hn221lt181]

/-- Cost of a two-element medoid list of the scenario data. -/
theorem costC20 : cost (distMat rowsC) 4 [2, 0] = 2 := by
  norm_num [cost, hrange4, rowMin, min_def, dC00, dC01, dC02, dC03, dC10, dC11, dC12, dC13, dC20, dC21, dC22, dC23, dC30, dC31, dC32, dC33,
    h1lt181, h1lt200, h1lt221, h0lt181, h0lt200, h0lt221, hn181lt0, hn200lt0, hn221lt0, hn181lt1, hn200lt1, hn221lt1, h1le181, h1le200, h1le221, hn181le0, hn200le0, hn221le0, hn181le1, hn200le1, hn221le1, h181le200, h200le221, h181le221, hn200le181, hn221le200, hn221le181, hn200lt181, hn221lt200, hn221lt181]

/-- Cost of a two-element medoid list of the scenario data. -/
theorem costC21 : cost (distMat rowsC) 4 [2, 1] = 2 := by
  norm_num [cost, hrange4, rowMin, min_def, dC00, dC01, dC02, dC03, dC10, dC11, dC12, dC13, dC20, dC21, dC22, dC23, dC30, dC31, dC32, dC33,
    h1lt181, h1lt200, h1lt221, h0lt181, h0lt200, h0lt221, hn181lt0, hn200lt0, hn221lt0, hn181lt1, hn200lt1, hn221lt1, h1le181, h1le200, h1le221, hn181le0, hn200le0, hn221le0, hn181le1, hn200le1, hn221le1, h181le200, h200le221, h181le221, hn200le181, hn221le200, hn221le181, hn200lt181, hn221lt200, hn221lt181]

/-- Cost of a two-element medoid list of the scenario data. -/
theorem costC23 : cost (distMat rowsC) 4 [2, 3] = Real.sqrt 181 + Real.sqrt 200 := by
  norm_num [cost, hrange4, rowMin, min_def, dC00, dC01, dC02, dC03, dC10, dC11, dC12, dC13, dC20, dC21, dC22, dC23, dC30, dC31, dC32, dC33,
    h1lt181, h1lt200, h1lt221, h0lt181, h0lt200, h0lt221, hn181lt0, hn200lt0, hn221lt0, hn181lt1, hn200lt1, hn221lt1, h1le181, h1le200, h1le221, hn181le0, hn200le0, hn221le0, hn181le1, hn200le1, hn221le1, h181le200, h200le221, h181le221, hn200le181, hn221le200, hn221le181, hn200lt181, hn221lt200, hn221lt181]
  ring

/-- Cost of a two-element medoid list of the scenario data. -/
theorem costC30 : cost (distMat rowsC) 4 [3, 0] = 2 := by
  norm_num [cost, hrange4, rowMin, min_def, dC00, dC01, dC02, dC03, dC10, dC11, dC12, dC13, dC20, dC21, dC22, dC23, dC30, dC31, dC32, dC33,
    h1lt181, h1lt200, h1lt221, h0lt181, h0lt200, h0lt221, hn181lt0, hn200lt0, hn221lt0, hn181lt1, hn200lt1, hn221lt1, h1le181, h1le200, h1le221, hn181le0, hn200le0, hn221le0, hn181le1, hn200le1, hn221le1, h181le200, h200le221, h181le221, hn200le181, hn221le200, hn221le181, hn200lt181, hn221lt200, hn221lt181]

/-- Cost of a two-element medoid list of the scenario data. -/
theorem costC31 : cost (distMat rowsC) 4 [3, 1] = 2 := by
  norm_num [cost, hrange4, rowMin, min_def, dC00, dC01, dC02, dC03, dC10, dC11, dC12, dC13, dC20, dC21, dC22, dC23, dC30, dC31, dC32, dC33,
    h1lt181, h1lt200, h1lt221, h0lt181, h0lt200, h0lt221, hn181lt0, hn200lt0, hn221lt0, hn181lt1, hn200lt1, hn221lt1, h1le181, h1le200, h1le221, hn181le0, hn200le0, hn221le0, hn181le1, hn200le1, hn221le1, h181le200, h200le221, h181le221, hn200le181, hn221le200, hn221le181, hn200lt181, hn221lt200, hn221lt181]

/-- Cost of a two-element medoid list of the scenario data. -/
theorem costC32 : cost (distMat rowsC) 4 [3, 2] = Real.sqrt 181 + Real.sqrt 200 := by
  norm_num [cost, hrange4, rowMin, min_def, dC00, dC01, dC02, dC03, dC10, dC11, dC12, dC13, dC20, dC21, dC22, dC23, dC30, dC31, dC32, dC33,
    h1lt181, h1lt200, h1lt221, h0lt181, h0lt200, h0lt221, hn181lt0, hn200lt0, hn221lt0, hn181lt1, hn200lt1, hn221lt1, h1le181, h1le200, h1le221, hn181le0, hn200le0, hn221le0, hn181le1, hn200le1, hn221le1, h181le200, h200le221, h181le221, hn200le181, hn221le200, hn221le181, hn200lt181, hn221lt200, hn221lt181]
  ring

/-- One optimizer pass of the scenario data. -/
theorem passC01 : doPass (distMat rowsC) 4 [0, 1] (Real.sqrt 181 + Real.sqrt 200) =
    ([2, 1], 2) := by
  norm_num [doPass, passStep, scanCandidates, hrange4, scanStep,
    costC01, costC02, costC03, costC10, costC12, costC13, costC20, costC21, costC23, costC30, costC31, costC32, h2lt_s, hn_s_lt2]

/-- One optimizer pass of the scenario data. -/
theorem passC02 : doPass (distMat rowsC) 4 [0, 2] (2) =
    ([0, 2], 2) := by
  norm_num [doPass, passStep, scanCandidates, hrange4, scanStep,
    costC01, costC02, costC03, costC10, costC12, costC13, costC20, costC21, costC23, costC30, costC31, costC32, h2lt_s, hn_s_lt2]

/-- One optimizer pass of the scenario data. -/
theorem passC03 : doPass (distMat rowsC) 4 [0, 3] (2) =
    ([0, 3], 2) := by
  norm_num [doPass, passStep, scanCandidates, hrange4, scanStep,
    costC01, costC02, costC03, costC10, costC12, costC13, costC20, costC21, costC23, costC30, costC31, costC32, h2lt_s, hn_s_lt2]

/-- One optimizer pass of the scenario data. -/
theorem passC10 : doPass (distMat rowsC) 4 [1, 0] (Real.sqrt 181 + Real.sqrt 200) =
    ([2, 0], 2) := by
  norm_num [doPass, passStep, scanCandidates, hrange4, scanStep,
    costC01, costC02, costC03, costC10, costC12, costC13, costC20, costC21, costC23, costC30, costC31, costC32, h2lt_s, hn_s_lt2]

/-- One optimizer pass of the scenario data. -/
theorem passC12 : doPass (distMat rowsC) 4 [1, 2] (2) =
    ([1, 2], 2) := by
  norm_num [doPass, passStep, scanCandidates, hrange4, scanStep,
    costC01, costC02, costC03, costC10, costC12, costC13, costC20, costC21, costC23, costC30, costC31, costC32, h2lt_s, hn_s_lt2]

/-- One optimizer pass of the scenario data. -/
theorem passC13 : doPass (distMat rowsC) 4 [1, 3] (2) =
    ([1, 3], 2) := by
  norm_num [doPass, passStep, scanCandidates, hrange4, scanStep,
    costC01, costC02, costC03, costC10, costC12, costC13, costC20, costC21, costC23, costC30, costC31, costC32, h2lt_s, hn_s_lt2]

/-- One optimizer pass of the scenario data. -/
theorem passC20 : doPass (distMat rowsC) 4 [2, 0] (2) =
    ([2, 0], 2) := by
  norm_num [doPass, passStep, scanCandidates, hrange4, scanStep,
    costC01, costC02, costC03, costC10, costC12, costC13, costC20, costC21, costC23, costC30, costC31, costC32, h2lt_s, hn_s_lt2]

/-- One optimizer pass of the scenario data. -/
theorem passC21 : doPass (distMat rowsC) 4 [2, 1] (2) =
    ([2, 1], 2) := by
  norm_num [doPass, passStep, scanCandidates, hrange4, scanStep,
    costC01, costC02, costC03, costC10, costC12, costC13, costC20, costC21, costC23, costC30, costC31, costC32, h2lt_s, hn_s_lt2]

/-- One optimizer pass of the scenario data. -/
theorem passC23 : doPass (distMat rowsC) 4 [2, 3] (Real.sqrt 181 + Real.sqrt 200) =
    ([0, 3], 2) := by
  norm_num [doPass, passStep, scanCandidates, hrange4, scanStep,
    costC01, costC02, costC03, costC10, costC12, costC13, costC20, costC21, costC23, costC30, costC31, costC32, h2lt_s, hn_s_lt2]

/-- One optimizer pass of the scenario data. -/
theorem passC30 : doPass (distMat rowsC) 4 [3, 0] (2) =
    ([3, 0], 2) := by
  norm_num [doPass, passStep, scanCandidates, hrange4, scanStep,
    costC01, costC02, costC03, costC10, costC12, costC13, costC20, costC21, costC23, costC30, costC31, costC32, h2lt_s, hn_s_lt2]

/-- One optimizer pass of the scenario data. -/
theorem passC31 : doPass (distMat rowsC) 4 [3, 1] (2) =
    ([3, 1], 2) := by
  norm_num [doPass, passStep, scanCandidates, hrange4, scanStep,
    costC01, costC02, costC03, costC10, costC12, costC13, costC20, costC21, costC23, costC30, costC31, costC32, h2lt_s, hn_s_lt2]

/-- One optimizer pass of the scenario data. -/
theorem passC32 : doPass (distMat rowsC) 4 [3, 2] (Real.sqrt 181 + Real.sqrt 200) =
    ([0, 2], 2) := by
  norm_num [doPass, passStep, scanCandidates, hrange4, scanStep,
    costC01, costC02, costC03, costC10, costC12, costC13, costC20, costC21, costC23, costC30, costC31, costC32, h2lt_s, hn_s_lt2]

/-- The optimizer loop on the scenario data from this start. -/
theorem loopC01 : pamLoop (distMat rowsC) 4 3 [0, 1]
    (cost (distMat rowsC) 4 [0, 1]) = some (([2, 1]), 2) := by
  rw [costC01, show (3 : Nat) = 2 + 1 from rfl, pamLoop_succ, passC01]
  rw [if_neg (by decide), show (2 : Nat) = 1 + 1 from rfl, pamLoop_succ, passC21]
  norm_num

/-- The optimizer loop on the scenario data from this start. -/
theorem loopC02 : pamLoop (distMat rowsC) 4 3 [0, 2]
    (cost (distMat rowsC) 4 [0, 2]) = some (([0, 2]), 2) := by
  rw [costC02, show (3 : Nat) = 2 + 1 from rfl, pamLoop_succ, passC02]
  norm_num

/-- The optimizer loop on the scenario data from this start. -/
theorem loopC03 : pamLoop (distMat rowsC) 4 3 [0, 3]
    (cost (distMat rowsC) 4 [0, 3]) = some (([0, 3]), 2) := by
  rw [costC03, show (3 : Nat) = 2 + 1 from rfl, pamLoop_succ, passC03]
  norm_num

/-- The optimizer loop on the scenario data from this start. -/
theorem loopC10 : pamLoop (distMat rowsC) 4 3 [1, 0]
    (cost (distMat rowsC) 4 [1, 0]) = some (([2, 0]), 2) := by
  rw [costC10, show (3 : Nat) = 2 + 1 from rfl, pamLoop_succ, passC10]
  rw [if_neg (by decide), show (2 : Nat) = 1 + 1 from rfl, pamLoop_succ, passC20]
  norm_num

/-- The optimizer loop on the scenario data from this start. -/
theorem loopC12 : pamLoop (distMat rowsC) 4 3 [1, 2]
    (cost (distMat rowsC) 4 [1, 2]) = some (([1, 2]), 2) := by
  rw [costC12, show (3 : Nat) = 2 + 1 from rfl, pamLoop_succ, passC12]
  norm_num

/-- The optimizer loop on the scenario data from this start. -/
theorem loopC13 : pamLoop (distMat rowsC) 4 3 [1, 3]
    (cost (distMat rowsC) 4 [1, 3]) = some (([1, 3]), 2) := by
  rw [costC13, show (3 : Nat) = 2 + 1 from rfl, pamLoop_succ, passC13]
  norm_num

/-- The optimizer loop on the scenario data from this start. -/
theorem loopC20 : pamLoop (distMat rowsC) 4 3 [2, 0]
    (cost (distMat rowsC) 4 [2, 0]) = some (([2, 0]), 2) := by
  rw [costC20, show (3 : Nat) = 2 + 1 from rfl, pamLoop_succ, passC20]
  norm_num

/-- The optimizer loop on the scenario data from this start. -/
theorem loopC21 : pamLoop (distMat rowsC) 4 3 [2, 1]
    (cost (distMat rowsC) 4 [2, 1]) = some (([2, 1]), 2) := by
  rw [costC21, show (3 : Nat) = 2 + 1 from rfl, pamLoop_succ, passC21]
  norm_num

/-- The optimizer loop on the scenario data from this start. -/
theorem loopC23 : pamLoop (distMat rowsC) 4 3 [2, 3]
    (cost (distMat rowsC) 4 [2, 3]) = some (([0, 3]), 2) := by
  rw [costC23, show (3 : Nat) = 2 + 1 from rfl, pamLoop_succ, passC23]
  rw [if_neg (by decide), show (2 : Nat) = 1 + 1 from rfl, pamLoop_succ, passC03]
  norm_num

/-- The optimizer loop on the scenario data from this start. -/
theorem loopC30 : pamLoop (distMat rowsC) 4 3 [3, 0]
    (cost (distMat rowsC) 4 [3, 0]) = some (([3, 0]), 2) := by
  rw [costC30, show (3 : Nat) = 2 + 1 from rfl, pamLoop_succ, passC30]
  norm_num

/-- The optimizer loop on the scenario data from this start. -/
theorem loopC31 : pamLoop (distMat rowsC) 4 3 [3, 1]
    (cost (distMat rowsC) 4 [3, 1]) = some (([3, 1]), 2) := by
  rw [costC31, show (3 : Nat) = 2 + 1 from rfl, pamLoop_succ, passC31]
  norm_num

/-- The optimizer loop on the scenario data from this start. -/
theorem loopC32 : pamLoop (distMat rowsC) 4 3 [3, 2]
    (cost (distMat rowsC) 4 [3, 2]) = some (([0, 2]), 2) := by
  rw [costC32, show (3 : Nat) = 2 + 1 from rfl, pamLoop_succ, passC32]
  rw [if_neg (by decide), show (2 : Nat) = 1 + 1 from rfl, pamLoop_succ, passC02]
  norm_num

/-- The full run of the scenario data from this start. -/
theorem runC01 : cluster_PAM (distMat rowsC) 4 [0, 1] 3 =
    some ([2, 1], [1, 1, 0, 0], 2) := by
  rw [cluster_PAM, loopC01]
  norm_num [assignClusters, hrange4, argminIdx, argminAux, costC21,
    dC00, dC01, dC02, dC03, dC10, dC11, dC12, dC13, dC20, dC21, dC22, dC23, dC30, dC31, dC32, dC33,
    h1lt181, h1lt200, h1lt221, h0lt181, h0lt200, h0lt221, hn181lt0, hn200lt0, hn221lt0, hn181lt1, hn200lt1, hn221lt1, h1le181, h1le200, h1le221, hn181le0, hn200le0, hn221le0, hn181le1, hn200le1, hn221le1, h181le200, h200le221, h181le221, hn200le181, hn221le200, hn221le181, hn200lt181, hn221lt200, hn221lt181]

/-- The full run of the scenario data from this start. -/
theorem runC02 : cluster_PAM (distMat rowsC) 4 [0, 2] 3 =
    some ([0, 2], [0, 0, 1, 1], 2) := by
  rw [cluster_PAM, loopC02]
  norm_num [assignClusters, hrange4, argminIdx, argminAux, costC02,
    dC00, dC01, dC02, dC03, dC10, dC11, dC12, dC13, dC20, dC21, dC22, dC23, dC30, dC31, dC32, dC33,
    h1lt181, h1lt200, h1lt221, h0lt181, h0lt200, h0lt221, hn181lt0, hn200lt0, hn221lt0, hn181lt1, hn200lt1, hn221lt1, h1le181, h1le200, h1le221, hn181le0, hn200le0, hn221le0, hn181le1, hn200le1, hn221le1, h181le200, h200le221, h181le221, hn200le181, hn221le200, hn221le181, hn200lt181, hn221lt200, hn221lt181]

/-- The full run of the scenario data from this start. -/
theorem runC03 : cluster_PAM (distMat rowsC) 4 [0, 3] 3 =
    some ([0, 3], [0, 0, 1, 1], 2) := by
  rw [cluster_PAM, loopC03]
  norm_num [assignClusters, hrange4, argminIdx, argminAux, costC03,
    dC00, dC01, dC02, dC03, dC10, dC11, dC12, dC13, dC20, dC21, dC22, dC23, dC30, dC31, dC32, dC33,
    h1lt181, h1lt200, h1lt221, h0lt181, h0lt200, h0lt221, hn181lt0, hn200lt0, hn221lt0, hn181lt1, hn200lt1, hn221lt1, h1le181, h1le200, h1le221, hn181le0, hn200le0, hn221le0, hn181le1, hn200le1, hn221le1, h181le200, h200le221, h181le221, hn200le181, hn221le200, hn221le181, hn200lt181, hn221lt200, hn221lt181]

/-- The full run of the scenario data from this start. -/
theorem runC10 : cluster_PAM (distMat rowsC) 4 [1, 0] 3 =
    some ([2, 0], [1, 1, 0, 0], 2) := by
  rw [cluster_PAM, loopC10]
  norm_num [assignClusters, hrange4, argminIdx, argminAux, costC20,
    dC00, dC01, dC02, dC03, dC10, dC11, dC12, dC13, dC20, dC21, dC22, dC23, dC30, dC31, dC32, dC33,
    h1lt181, h1lt200, h1lt221, h0lt181, h0lt200, h0lt221, hn181lt0, hn200lt0, hn221lt0, hn181lt1, hn200lt1, hn221lt1, h1le181, h1le200, h1le221, hn181le0, hn200le0, hn221le0, hn181le1, hn200le1, hn221le1, h181le200, h200le221, h181le221, hn200le181, hn221le200, hn221le181, hn200lt181, hn221lt200, hn221lt181]

/-- The full run of the scenario data from this start. -/
theorem runC12 : cluster_PAM (distMat rowsC) 4 [1, 2] 3 =
    some ([1, 2], [0, 0, 1, 1], 2) := by
  rw [cluster_PAM, loopC12]
  norm_num [assignClusters, hrange4, argminIdx, argminAux, costC12,
    dC00, dC01, dC02, dC03, dC10, dC11, dC12, dC13, dC20, dC21, dC22, dC23, dC30, dC31, dC32, dC33,
    h1lt181, h1lt200, h1lt221, h0lt181, h0lt200, h0lt221, hn181lt0, hn200lt0, hn221lt0, hn181lt1, hn200lt1, hn221lt1, h1le181, h1le200, h1le221, hn181le0, hn200le0, hn221le0, hn181le1, hn200le1, hn221le1, h181le200, h200le221, h181le221, hn200le181, hn221le200, hn221le181, hn200lt181, hn221lt200, hn221lt181]

/-- The full run of the scenario data from this start. -/
theorem runC13 : cluster_PAM (distMat rowsC) 4 [1, 3] 3 =
    some ([1, 3], [0, 0, 1, 1], 2) := by
  rw [cluster_PAM, loopC13]
  norm_num [assignClusters, hrange4, argminIdx, argminAux, costC13,
    dC00, dC01, dC02, dC03, dC10, dC11, dC12, dC13, dC20, dC21, dC22, dC23, dC30, dC31, dC32, dC33,
    h1lt181, h1lt200, h1lt221, h0lt181, h0lt200, h0lt221, hn181lt0, hn200lt0, hn221lt0, hn181lt1, hn200lt1, hn221lt1, h1le181, h1le200, h1le221, hn181le0, hn200le0, hn221le0, hn181le1, hn200le1, hn221le1, h181le200, h200le221, h181le221, hn200le181, hn221le200, hn221le181, hn200lt181, hn221lt200, hn221lt181]

/-- The full run of the scenario data from this start. -/
theorem runC20 : cluster_PAM (distMat rowsC) 4 [2, 0] 3 =
    some ([2, 0], [1, 1, 0, 0], 2) := by
  rw [cluster_PAM, loopC20]
  norm_num [assignClusters, hrange4, argminIdx, argminAux, costC20,
    dC00, dC01, dC02, dC03, dC10, dC11, dC12, dC13, dC20, dC21, dC22, dC23, dC30, dC31, dC32, dC33,
    h1lt181, h1lt200, h1lt221, h0lt181, h0lt200, h0lt221, hn181lt0, hn200lt0, hn221lt0, hn181lt1, hn200lt1, hn221lt1, h1le181, h1le200, h1le221, hn181le0, hn200le0, hn221le0, hn181le1, hn200le1, hn221le1, h181le200, h200le221, h181le221, hn200le181, hn221le200, hn221le181, hn200lt181, hn221lt200, hn221lt181]

/-- The full run of the scenario data from this start. -/
theorem runC21 : cluster_PAM (distMat rowsC) 4 [2, 1] 3 =
    some ([2, 1], [1, 1, 0, 0], 2) := by
  rw [cluster_PAM, loopC21]
  norm_num [assignClusters, hrange4, argminIdx, argminAux, costC21,
    dC00, dC01, dC02, dC03, dC10, dC11, dC12, dC13, dC20, dC21, dC22, dC23, dC30, dC31, dC32, dC33,
    h1lt181, h1lt200, h1lt221, h0lt181, h0lt200, h0lt221, hn181lt0, hn200lt0, hn221lt0, hn181lt1, hn200lt1, hn221lt1, h1le181, h1le200, h1le221, hn181le0, hn200le0, hn221le0, hn181le1, hn200le1, hn221le1, h181le200, h200le221, h181le221, hn200le181, hn221le200, hn221le181, hn200lt181, hn221lt200, hn221lt181]

/-- The full run of the scenario data from this start. -/
theorem runC23 : cluster_PAM (distMat rowsC) 4 [2, 3] 3 =
    some ([0, 3], [0, 0, 1, 1], 2) := by
  rw [cluster_PAM, loopC23]
  norm_num [assignClusters, hrange4, argminIdx, argminAux, costC03,
    dC00, dC01, dC02, dC03, dC10, dC11, dC12, dC13, dC20, dC21, dC22, dC23, dC30, dC31, dC32, dC33,
    h1lt181, h1lt200, h1lt221, h0lt181, h0lt200, h0lt221, hn181lt0, hn200lt0, hn221lt0, hn181lt1, hn200lt1, hn221lt1, h1le181, h1le200, h1le221, hn181le0, hn200le0, hn221le0, hn181le1, hn200le1, hn221le1, h181le200, h200le221, h181le221, hn200le181, hn221le200, hn221le181, hn200lt181, hn221lt200, hn221lt181]

/-- The full run of the scenario data from this start. -/
theorem runC30 : cluster_PAM (distMat rowsC) 4 [3, 0] 3 =
    some ([3, 0], [1, 1, 0, 0], 2) := by
  rw [cluster_PAM, loopC30]
  norm_num [assignClusters, hrange4, argminIdx, argminAux, costC30,
    dC00, dC01, dC02, dC03, dC10, dC11, dC12, dC13, dC20, dC21, dC22, dC23, dC30, dC31, dC32, dC33,
    h1lt181, h1lt200, h1lt221, h0lt181, h0lt200, h0lt221, hn181lt0, hn200lt0, hn221lt0, hn181lt1, hn200lt1, hn221lt1, h1le181, h1le200, h1le221, hn181le0, hn200le0, hn221le0, hn181le1, hn200le1, hn221le1, h181le200, h200le221, h181le221, hn200le181, hn221le200, hn221le181, hn200lt181, hn221lt200, hn221lt181]

/-- The full run of the scenario data from this start. -/
theorem runC31 : cluster_PAM (distMat rowsC) 4 [3, 1] 3 =
    some ([3, 1], [1, 1, 0, 0], 2) := by
  rw [cluster_PAM, loopC31]
  norm_num [assignClusters, hrange4, argminIdx, argminAux, costC31,
    dC00, dC01, dC02, dC03, dC10, dC11, dC12, dC13, dC20, dC21, dC22, dC23, dC30, dC31, dC32, dC33,
    h1lt181, h1lt200, h1lt221, h0lt181, h0lt200, h0lt221, hn181lt0, hn200lt0, hn221lt0, hn181lt1, hn200lt1, hn221lt1, h1le181, h1le200, h1le221, hn181le0, hn200le0, hn221le0, hn181le1, hn200le1, hn221le1, h181le200, h200le221, h181le221, hn200le181, hn221le200, hn221le181, hn200lt181, hn221lt200, hn221lt181]

/-- The full run of the scenario data from this start. -/
theorem runC32 : cluster_PAM (distMat rowsC) 4 [3, 2] 3 =
    some ([0, 2], [0, 0, 1, 1], 2) := by
  rw [cluster_PAM, loopC32]
  norm_num [assignClusters, hrange4, argminIdx, argminAux, costC02,
    dC00, dC01, dC02, dC03, dC10, dC11, dC12, dC13, dC20, dC21, dC22, dC23, dC30, dC31, dC32, dC33,
    h1lt181, h1lt200, h1lt221, h0lt181, h0lt200, h0lt221, hn181lt0, hn200lt0, hn221lt0, hn181lt1, hn200lt1, hn221lt1, h1le181, h1le200, h1le221, hn181le0, hn200le0, hn221le0, hn181le1, hn200le1, hn221le1, h181le200, h200le221, h181le221, hn200le181, hn221le200, hn221le181, hn200lt181, hn221lt200, hn221lt181]

/-- C2: on the data set of the specification scenario with k = 2, for
every possible initial random medoid list (all ordered pairs of distinct
row indices), the run returns final cost exactly 2, a final medoid list
holding exactly one index of the pair 0, 1 and exactly one index of the
pair 2, 3, and assigns every point a medoid of its own pair. -/
theorem C2_concrete_scenario (ms : List Nat) (hlen : ms.length = 2)
    (hnd : ms.Nodup) (hbound : ∀ x ∈ ms, x < 4) :
    ∃ M C : List Nat,
      cluster_PAM (distMat rowsC) 4 ms 3 = some (M, C, 2) ∧
      ((M.filter (fun x => x < 2)).length = 1 ∧
        (M.filter (fun x => 2 ≤ x)).length = 1) ∧
      (∀ i, i < 4 → (M.getD (C.getD i 0) 0 < 2 ↔ i < 2)) := by
  rcases ms with _ | ⟨a, _ | ⟨b, _ | ⟨c, tl⟩⟩⟩
  · simp at hlen
  · simp at hlen
  case _ =>
    have ha : a < 4 := hbound a (by simp)
    have hb : b < 4 := hbound b (by simp)
    have hab : a ≠ b := by
      intro h
      subst h
      simp at hnd
    interval_cases a <;> interval_cases b <;>
      first
        | exact absurd rfl hab
        | exact ⟨[2, 1], [1, 1, 0, 0], runC01, ⟨by decide, by decide⟩, by decide⟩
        | exact ⟨[0, 2], [0, 0, 1, 1], runC02, ⟨by decide, by decide⟩, by decide⟩
        | exact ⟨[0, 3], [0, 0, 1, 1], runC03, ⟨by decide, by decide⟩, by decide⟩
        | exact ⟨[2, 0], [1, 1, 0, 0], runC10, ⟨by decide, by decide⟩, by decide⟩
        | exact ⟨[1, 2], [0, 0, 1, 1], runC12, ⟨by decide, by decide⟩, by decide⟩
        | exact ⟨[1, 3], [0, 0, 1, 1], runC13, ⟨by decide, by decide⟩, by decide⟩
        | exact ⟨[2, 0], [1, 1, 0, 0], runC20, ⟨by decide, by decide⟩, by decide⟩
        | exact ⟨[2, 1], [1, 1, 0, 0], runC21, ⟨by decide, by decide⟩, by decide⟩
        | exact ⟨[0, 3], [0, 0, 1, 1], runC23, ⟨by decide, by decide⟩, by decide⟩
        | exact ⟨[3, 0], [1, 1, 0, 0], runC30, ⟨by decide, by decide⟩, by decide⟩
        | exact ⟨[3, 1], [1, 1, 0, 0], runC31, ⟨by decide, by decide⟩, by decide⟩
        | exact ⟨[0, 2], [0, 0, 1, 1], runC32, ⟨by decide, by decide⟩, by decide⟩
  · simp at hlen

/-- Witness for C2 at a concrete input. -/
theorem C2_concrete_scenario_witness :
    ([0, 1] : List Nat).length = 2 ∧ ([0, 1] : List Nat).Nodup ∧
      (∀ x ∈ ([0, 1] : List Nat), x < 4) ∧
      (∃ M C : List Nat,
        cluster_PAM (distMat rowsC) 4 [0, 1] 3 = some (M, C, 2) ∧
        ((M.filter (fun x => x < 2)).length = 1 ∧
          (M.filter (fun x => 2 ≤ x)).length = 1) ∧
        (∀ i, i < 4 → (M.getD (C.getD i 0) 0 < 2 ↔ i < 2))) :=
  ⟨by decide, by decide, by decide,
    C2_concrete_scenario [0, 1] (by decide) (by decide) (by decide)⟩

/-- C3: each invalid input of the specification (X not a NumPy ndarray or
not two-dimensional, k not positive, k exceeding the row count, or a NaN
entry present) makes validation fail with an error message, and the
overall outcome is that error for every distance matrix, every initial
medoid list and every fuel, so neither distance-matrix construction nor
medoid search contributes to the result. -/
theorem C3_invalid_inputs_rejected {α : Type} [LinearOrderedField α]
    (X : NDArrayLike α) (k : PyNum)
    (hbad : X = NDArrayLike.notNdarray ∨
      (∃ d rows, X = NDArrayLike.ndarray d rows ∧ d ≠ 2) ∨
      k.toInt ≤ 0 ∨ (numRows X : Int) < k.toInt ∨ hasNaN X = true) :
    ∃ msg, validate X k = some msg ∧
      ∀ (D : Nat → Nat → α) (init : List Nat) (fuel : Nat),
        clusterPAMChecked D X k init fuel = Except.error msg := by
  have h : ∃ msg, validate X k = some msg := by
    cases X with
    | notNdarray => exact ⟨msgNotArray, rfl⟩
    | ndarray d rows =>
      have hbad2 : d ≠ 2 ∨ k.toInt ≤ 0 ∨ (rows.length : Int) < k.toInt ∨
          rows.any (fun r => r.any (fun e => e.isNaN)) = true := by
        rcases hbad with h | ⟨d2, rows2, he, hne⟩ | h | h | h
        · exact absurd h (by simp)
        · injection he with hd hrows
          subst hd
          exact Or.inl hne
        · exact Or.inr (Or.inl h)
        · exact Or.inr (Or.inr (Or.inl (by simpa using h)))
        · exact Or.inr (Or.inr (Or.inr (by simpa [hasNaN] using h)))
      simp only [validate]
      split_ifs with h1 h2 h3 h4
      · exact ⟨msgNot2D, rfl⟩
      · exact ⟨msgBadK, rfl⟩
      · exact ⟨msgKTooLarge, rfl⟩
      · exact ⟨msgNaN, rfl⟩
      · exfalso
        rcases hbad2 with h | h | h | h
        · exact h1 h
        · exact (not_or.1 h2).2 h
        · exact h3 (by omega)
        · exact h4 h
  obtain ⟨msg, hmsg⟩ := h
  refine ⟨msg, hmsg, ?_⟩
  intro D init fuel
  unfold clusterPAMChecked
  rw [hmsg]

/-- Witness for C3 at a concrete input. -/
theorem C3_invalid_inputs_rejected_witness :
    ((NDArrayLike.notNdarray : NDArrayLike ℚ) = NDArrayLike.notNdarray ∨
      (∃ d rows, (NDArrayLike.notNdarray : NDArrayLike ℚ) =
        NDArrayLike.ndarray d rows ∧ d ≠ 2) ∨
      (PyNum.pyInt 1).toInt ≤ 0 ∨
      ((numRows (NDArrayLike.notNdarray : NDArrayLike ℚ)) : Int) <
        (PyNum.pyInt 1).toInt ∨
      hasNaN (NDArrayLike.notNdarray : NDArrayLike ℚ) = true) ∧
      (∃ msg, validate (NDArrayLike.notNdarray : NDArrayLike ℚ)
          (PyNum.pyInt 1) = some msg ∧
        ∀ (D : Nat → Nat → ℚ) (init : List Nat) (fuel : Nat),
          clusterPAMChecked D NDArrayLike.notNdarray (PyNum.pyInt 1)
            init fuel = Except.error msg) :=
  ⟨Or.inl rfl,
    C3_invalid_inputs_rejected NDArrayLike.notNdarray (PyNum.pyInt 1)
      (Or.inl rfl)⟩

/-- C10: the isinstance-based integer check accepts Python booleans, so
the boolean True passes validation whenever X is a valid two-dimensional
matrix with at least one row, counting as the integer 1 (the number of
medoids the random initialization then draws), and the run proceeds;
while a numpy integer scalar is rejected with the k-validation message
even when its value is a positive integer at most the row count. -/
theorem C10_bool_accepted_npint_rejected {α : Type} [LinearOrderedField α]
    (rows : List (List (REntry α))) (hrow : 1 ≤ rows.length)
    (hnan : rows.any (fun r => r.any (fun e => e.isNaN)) = false) :
    validate (NDArrayLike.ndarray 2 rows) (PyNum.pyBool true) = none ∧
      PyNum.toInt (PyNum.pyBool true) = 1 ∧
      (∀ (D : Nat → Nat → α) (init : List Nat) (fuel : Nat),
        clusterPAMChecked D (NDArrayLike.ndarray 2 rows) (PyNum.pyBool true)
            init fuel = Except.ok (cluster_PAM D rows.length init fuel)) ∧
      (∀ i : Int, 0 < i → i ≤ (rows.length : Int) →
        validate (NDArrayLike.ndarray 2 rows) (PyNum.npInt i) = some msgBadK) := by
  have hpass : validate (NDArrayLike.ndarray 2 rows) (PyNum.pyBool true) = none := by
    simp only [validate]
    rw [if_neg (by norm_num)]
    rw [if_neg (by decide)]
    rw [if_neg (by show ¬ ((1 : Int) > (rows.length : Int)); omega)]
    rw [if_neg (by simp [hnan])]
  refine ⟨hpass, rfl, ?_, ?_⟩
  · intro D init fuel
    unfold clusterPAMChecked
    rw [hpass]
    rfl
  · intro i _ _
    simp only [validate]
    rw [if_neg (by norm_num)]
    rw [if_pos (Or.inl (by simp [PyNum.isPyInt]))]

/-- Witness for C10 at a concrete input. -/
theorem C10_bool_accepted_npint_rejected_witness :
    1 ≤ ([[REntry.val (0 : ℚ)]] : List (List (REntry ℚ))).length ∧
      ([[REntry.val (0 : ℚ)]] : List (List (REntry ℚ))).any
          (fun r => r.any (fun e => e.isNaN)) = false ∧
      (validate (NDArrayLike.ndarray 2 [[REntry.val (0 : ℚ)]])
          (PyNum.pyBool true) = none ∧
        PyNum.toInt (PyNum.pyBool true) = 1 ∧
        (∀ (D : Nat → Nat → ℚ) (init : List Nat) (fuel : Nat),
          clusterPAMChecked D (NDArrayLike.ndarray 2 [[REntry.val (0 : ℚ)]])
              (PyNum.pyBool true) init fuel =
            Except.ok (cluster_PAM D
              ([[REntry.val (0 : ℚ)]] : List (List (REntry ℚ))).length
              init fuel)) ∧
        (∀ i : Int, 0 < i →
          i ≤ (([[REntry.val (0 : ℚ)]] : List (List (REntry ℚ))).length : Int) →
          validate (NDArrayLike.ndarray 2 [[REntry.val (0 : ℚ)]])
            (PyNum.npInt i) = some msgBadK)) :=
  ⟨by decide, by decide,
    C10_bool_accepted_npint_rejected [[REntry.val (0 : ℚ)]]
      (by decide) (by decide)⟩

end PAM
